import Mathlib

/-!
Verification of the Elasticpath shop Telegram bot (`telegram_bot.py` of
aevtikheev/elasticpath-shop-bot), as a shallow embedding in Lean.

The embedding covers the conversation engine: the per-user state dispatch
(`handle_users_reply` and the `_state_functions` table), the individual state
handlers, the catalog pagination cursor, the delivery-pricing tiers, the
nearest-shop selection, and the JSON callback-token codec
(`serialize_product_id_and_amount` / `deserialize_product_id_and_amount`).

External collaborators (the Elasticpath HTTP API, the Yandex geocoder, the
geopy geodesic-distance computation, the Telegram transport and the Redis
store) are modeled as oracles: a record of functions an environment provides.
Python exceptions are modeled with `Except`; the mutable per-user Redis entry
and the transient `context.user_data['page']` cursor are threaded explicitly.
Python floats (telegram coordinates, geocoder output) are modeled as opaque
string tokens: no code in this repository performs arithmetic on them, they
are only passed to the external geopy library, which the model keeps as an
oracle.
-/

namespace ShopBot

/-! ## The callback-token JSON codec

`serialize_product_id_and_amount` is `json.dumps({'id': product_id,
'amount': amount})` and `deserialize_product_id_and_amount` is `json.loads`
followed by the `['id']` and `['amount']` subscripts (telegram_bot.py:317-329).
The CPython `json` module behavior is embedded here: `json.dumps` with its
default `ensure_ascii=True` escaping on the encoding side, and the full
`json.loads` grammar on the decoding side (strings with escapes and surrogate
pairs, integers, floats kept as opaque literal text, booleans, null, arrays,
objects with later duplicate keys winning, the NaN and Infinity constants).
The one deviation, on which no claim depends: `\uXXXX` escapes denoting lone
surrogates are mapped to a decode failure, since Lean strings cannot
represent lone surrogates, while CPython keeps them.
-/

/-- Hexadecimal digit characters, lowercase, as produced by CPython's
`json.encoder` (`'\\u{0:04x}'.format`).  Only used with arguments below 16. -/
def hexDigitChar (n : Nat) : Char :=
  if n < 10 then Char.ofNat (48 + n) else Char.ofNat (87 + n)

/-- Four lowercase hexadecimal digits of `n`, most significant first. -/
def hex4 (n : Nat) : List Char :=
  [hexDigitChar (n / 4096 % 16), hexDigitChar (n / 256 % 16),
   hexDigitChar (n / 16 % 16), hexDigitChar (n % 16)]

/-- Escape of a single character, following CPython
`json.encoder.py_encode_basestring_ascii` (used by `json.dumps` with the
default `ensure_ascii=True`): quote and backslash get two-character escapes,
the five control characters BS HT LF FF CR get short escapes, every other
character outside printable ASCII `0x20..0x7e` becomes `\uXXXX` (a surrogate
pair for code points above `0xFFFF`), and printable ASCII stays verbatim. -/
def escapeChar (c : Char) : List Char :=
  if c = '"' then ['\\', '"']
  else if c = '\\' then ['\\', '\\']
  else if c.toNat = 8 then ['\\', 'b']
  else if c.toNat = 9 then ['\\', 't']
  else if c.toNat = 10 then ['\\', 'n']
  else if c.toNat = 12 then ['\\', 'f']
  else if c.toNat = 13 then ['\\', 'r']
  else if 0x20 ≤ c.toNat ∧ c.toNat ≤ 0x7e then [c]
  else if c.toNat < 0x10000 then '\\' :: 'u' :: hex4 c.toNat
  else
    ('\\' :: 'u' :: hex4 (0xD800 + (c.toNat - 0x10000) / 0x400)) ++
      ('\\' :: 'u' :: hex4 (0xDC00 + (c.toNat - 0x10000) % 0x400))

/-- JSON string-body escaping, character by character. -/
def escapeStr : List Char → List Char
  | [] => []
  | c :: cs => escapeChar c ++ escapeStr cs

/-- Decimal digit character of `d` (`d < 10`). -/
def digitChar10 (d : Nat) : Char := Char.ofNat (48 + d)

/-- Decimal digits by fuel recursion; `natDigits` supplies ample fuel.  The
fuel keeps the recursion structural, so that terms compute by kernel
reduction. -/
def natDigitsAux : Nat → Nat → List Char
  | 0, _ => []
  | fuel + 1, n =>
    if n < 10 then [digitChar10 n]
    else natDigitsAux fuel (n / 10) ++ [digitChar10 (n % 10)]

/-- Decimal digits of a natural number, as Python `str` renders it: no
leading zeros, a single `0` for zero. -/
def natDigits (n : Nat) : List Char := natDigitsAux (n + 1) n

/-- Decimal rendering of an integer, as Python `str` of `int`. -/
def intRepr (a : Int) : List Char :=
  if a < 0 then '-' :: natDigits a.natAbs else natDigits a.natAbs

/-- Embedding of `serialize_product_id_and_amount` (telegram_bot.py:317-323):
`json.dumps({'id': product_id, 'amount': amount})`, rendered exactly as
CPython does with the default separators. -/
def serialize_product_id_and_amount (product_id : String) (amount : Int) : String :=
  String.mk ('{' :: '"' :: 'i' :: 'd' :: '"' :: ':' :: ' ' :: '"' ::
    (escapeStr product_id.toList ++
      ('"' :: ',' :: ' ' :: '"' :: 'a' :: 'm' :: 'o' :: 'u' :: 'n' :: 't' :: '"' :: ':' :: ' ' ::
        (intRepr amount ++ ['}']))))

/-- JSON values as `json.loads` produces them.  A float is kept as the
literal text matched by CPython's number regex (or one of the `NaN`,
`Infinity`, `-Infinity` constants): floats are opaque in this model, no code
in the repository computes on them. -/
inductive JsonValue where
  | str (s : String) : JsonValue
  | int (n : Int) : JsonValue
  | float (literal : String) : JsonValue
  | bool (b : Bool) : JsonValue
  | null : JsonValue
  | arr (elems : List JsonValue) : JsonValue
  | obj (members : List (String × JsonValue)) : JsonValue
deriving Repr

/-- Whitespace characters `json.loads` skips between tokens. -/
def isWsChar (c : Char) : Bool :=
  c = ' ' || c = '\t' || c = '\n' || c = '\r'

/-- Drop leading JSON whitespace. -/
def skipWs : List Char → List Char
  | [] => []
  | c :: cs => if isWsChar c then skipWs cs else c :: cs

/-- Value of a hexadecimal digit character; `json.loads` accepts both cases. -/
def hexVal (c : Char) : Option Nat :=
  if 48 ≤ c.toNat ∧ c.toNat ≤ 57 then some (c.toNat - 48)
  else if 97 ≤ c.toNat ∧ c.toNat ≤ 102 then some (c.toNat - 87)
  else if 65 ≤ c.toNat ∧ c.toNat ≤ 70 then some (c.toNat - 55)
  else none

/-- Characters reached by a single-character backslash escape in a JSON
string, per CPython `json.scanner` (`BACKSLASH` table). -/
def escCharOf (e : Char) : Option Char :=
  if e = '"' then some '"'
  else if e = '\\' then some '\\'
  else if e = '/' then some '/'
  else if e = 'b' then some (Char.ofNat 8)
  else if e = 'f' then some (Char.ofNat 12)
  else if e = 'n' then some (Char.ofNat 10)
  else if e = 'r' then some (Char.ofNat 13)
  else if e = 't' then some (Char.ofNat 9)
  else none

/-- Parse exactly four hexadecimal digits, returning their value and the
remainder. -/
def parseU4 : List Char → Option (Nat × List Char)
  | a :: b :: c :: d :: rest =>
    match hexVal a, hexVal b, hexVal c, hexVal d with
    | some ha, some hb, some hc, some hd => some (ha * 4096 + hb * 256 + hc * 16 + hd, rest)
    | _, _, _, _ => none
  | _ => none

/-- Decode one backslash escape (the input starts right after the backslash):
a single-character escape, or `\uXXXX` with surrogate-pair combination, per
CPython `json.scanner.py_scanstring`.  An escape denoting a lone surrogate
fails here (see the module comment). -/
def parseEscape (rest : List Char) : Option (Char × List Char) :=
  match rest with
  | [] => none
  | e :: rest2 =>
    if e = 'u' then
      match parseU4 rest2 with
      | none => none
      | some (n, rest3) =>
        if n < 0xD800 ∨ 0xE000 ≤ n then some (Char.ofNat n, rest3)
        else if n < 0xDC00 then
          match rest3 with
          | b1 :: b2 :: rest4 =>
            if b1 = '\\' ∧ b2 = 'u' then
              match parseU4 rest4 with
              | none => none
              | some (m, rest5) =>
                if 0xDC00 ≤ m ∧ m < 0xE000 then
                  some (Char.ofNat (0x10000 + (n - 0xD800) * 0x400 + (m - 0xDC00)), rest5)
                else none
            else none
          | _ => none
        else none
    else
      match escCharOf e with
      | some d => some (d, rest2)
      | none => none

/-- Parse the body of a JSON string by fuel recursion; `parseStringBody`
supplies ample fuel.  Per CPython `json.scanner.py_scanstring` in the default
strict mode: stop at the closing quote, decode backslash escapes through
`parseEscape`, reject raw control characters. -/
def parseStringBodyAux : Nat → List Char → Option (List Char × List Char)
  | 0, _ => none
  | fuel + 1, cs =>
    match cs with
    | [] => none
    | c :: rest =>
      if c = '"' then some ([], rest)
      else if c = '\\' then
        match parseEscape rest with
        | none => none
        | some (d, rest2) => (parseStringBodyAux fuel rest2).map (fun p => (d :: p.1, p.2))
      else if c.toNat < 0x20 then none
      else (parseStringBodyAux fuel rest).map (fun p => (c :: p.1, p.2))

/-- Parse the body of a JSON string after the opening quote, returning the
decoded characters and the remaining input. -/
def parseStringBody (cs : List Char) : Option (List Char × List Char) :=
  parseStringBodyAux (cs.length + 1) cs

/-- Decimal digit test. -/
def isDigitChar (c : Char) : Bool := 48 ≤ c.toNat && c.toNat ≤ 57

/-- Numeric value of a digit string, most significant first. -/
def natOfDigits (ds : List Char) : Nat :=
  ds.foldl (fun acc c => acc * 10 + (c.toNat - 48)) 0

/-- Parse the integer part of a JSON number per CPython's `NUMBER_RE` group
`0|[1-9]\d*`: a single zero, or a nonzero digit followed by digits.  Returns
the digit characters and the rest. -/
def parseIntPart (cs : List Char) : Option (List Char × List Char) :=
  match cs with
  | [] => none
  | c :: rest =>
    if c = '0' then some (['0'], rest)
    else if isDigitChar c then
      some (c :: rest.takeWhile (fun x => isDigitChar x),
        rest.dropWhile (fun x => isDigitChar x))
    else none

/-- Parse the optional fraction part `(\.\d+)?`: consumed only when a dot is
followed by at least one digit, exactly as the regex backtracks. -/
def parseFracPart (cs : List Char) : List Char × List Char :=
  match cs with
  | '.' :: d :: rest =>
    if isDigitChar d then
      ('.' :: d :: rest.takeWhile (fun x => isDigitChar x),
        rest.dropWhile (fun x => isDigitChar x))
    else ([], cs)
  | _ => ([], cs)

/-- Parse the optional exponent part `([eE][-+]?\d+)?`. -/
def parseExpPart (cs : List Char) : List Char × List Char :=
  match cs with
  | e :: rest =>
    if e = 'e' ∨ e = 'E' then
      match rest with
      | s :: d :: rest2 =>
        if (s = '+' ∨ s = '-') ∧ isDigitChar d then
          (e :: s :: d :: rest2.takeWhile (fun x => isDigitChar x),
            rest2.dropWhile (fun x => isDigitChar x))
        else if isDigitChar s then
          (e :: s :: (d :: rest2).takeWhile (fun x => isDigitChar x),
            (d :: rest2).dropWhile (fun x => isDigitChar x))
        else ([], cs)
      | [s] => if isDigitChar s then ([e, s], []) else ([], cs)
      | [] => ([], cs)
    else ([], cs)
  | [] => ([], cs)

/-- Parse a JSON number after the optional sign has been split off. -/
def parseNumCore (neg : Bool) (cs1 : List Char) : Option (JsonValue × List Char) :=
  match parseIntPart cs1 with
  | none => none
  | some (ds, rest) =>
    let fr := parseFracPart rest
    let ex := parseExpPart fr.2
    if fr.1 = [] ∧ ex.1 = [] then
      some (JsonValue.int (if neg then -(natOfDigits ds : Int) else (natOfDigits ds : Int)), rest)
    else
      some (JsonValue.float (String.mk ((if neg then ['-'] else []) ++ ds ++ fr.1 ++ ex.1)), ex.2)

/-- Parse a JSON number per CPython's `NUMBER_RE`
(`(-?(?:0|[1-9]\d*))(\.\d+)?([eE][-+]?\d+)?`): an integer when neither
fraction nor exponent is present, otherwise a float carried as its literal
text. -/
def parseNum (cs : List Char) : Option (JsonValue × List Char) :=
  match cs with
  | [] => none
  | c :: rest => if c = '-' then parseNumCore true rest else parseNumCore false (c :: rest)

/-- Match an expected character sequence at the head of the input, returning
the remainder on success. -/
def expectChars : List Char → List Char → Option (List Char)
  | [], cs => some cs
  | _ :: _, [] => none
  | k :: ks, c :: cs => if c = k then expectChars ks cs else none

mutual

/-- Parse one JSON value, per CPython `json.scanner.py_make_scanner`: string,
object, array, the `true`/`false`/`null` keywords, a number, or the
`NaN`/`Infinity`/`-Infinity` constants.  The fuel argument bounds nesting;
`loads` supplies enough for any input. -/
def parseValue : Nat → List Char → Option (JsonValue × List Char)
  | 0, _ => none
  | Nat.succ f, cs =>
    match skipWs cs with
    | [] => none
    | c :: rest =>
      if c = '"' then
        (parseStringBody rest).map (fun p => (JsonValue.str (String.mk p.1), p.2))
      else if c = '{' then
        match skipWs rest with
        | [] => (parseMembers f (skipWs rest)).map (fun p => (JsonValue.obj p.1, p.2))
        | c2 :: rest2 =>
          if c2 = '}' then some (JsonValue.obj [], rest2)
          else (parseMembers f (skipWs rest)).map (fun p => (JsonValue.obj p.1, p.2))
      else if c = '[' then
        match skipWs rest with
        | [] => (parseElems f (skipWs rest)).map (fun p => (JsonValue.arr p.1, p.2))
        | c2 :: rest2 =>
          if c2 = ']' then some (JsonValue.arr [], rest2)
          else (parseElems f (skipWs rest)).map (fun p => (JsonValue.arr p.1, p.2))
      else if c = 't' then
        (expectChars ['r', 'u', 'e'] rest).map (fun r => (JsonValue.bool true, r))
      else if c = 'f' then
        (expectChars ['a', 'l', 's', 'e'] rest).map (fun r => (JsonValue.bool false, r))
      else if c = 'n' then
        (expectChars ['u', 'l', 'l'] rest).map (fun r => (JsonValue.null, r))
      else if c = 'N' then
        (expectChars ['a', 'N'] rest).map (fun r => (JsonValue.float "NaN", r))
      else if c = 'I' then
        (expectChars ['n', 'f', 'i', 'n', 'i', 't', 'y'] rest).map
          (fun r => (JsonValue.float "Infinity", r))
      else if c = '-' then
        match expectChars ['I', 'n', 'f', 'i', 'n', 'i', 't', 'y'] rest with
        | some r => some (JsonValue.float "-Infinity", r)
        | none => parseNum (c :: rest)
      else parseNum (c :: rest)

/-- Parse the members of a JSON object after the opening brace (at least one
member; the empty object is handled by `parseValue`). -/
def parseMembers : Nat → List Char → Option (List (String × JsonValue) × List Char)
  | 0, _ => none
  | Nat.succ f, cs =>
    match skipWs cs with
    | '"' :: rest =>
      match parseStringBody rest with
      | none => none
      | some (key, rest2) =>
        match skipWs rest2 with
        | ':' :: rest3 =>
          match parseValue f rest3 with
          | none => none
          | some (v, rest4) =>
            match skipWs rest4 with
            | ',' :: rest5 =>
              (parseMembers f rest5).map (fun p => ((String.mk key, v) :: p.1, p.2))
            | '}' :: rest5 => some ([(String.mk key, v)], rest5)
            | _ => none
        | _ => none
    | _ => none

/-- Parse the elements of a JSON array after the opening bracket (at least
one element; the empty array is handled by `parseValue`). -/
def parseElems : Nat → List Char → Option (List JsonValue × List Char)
  | 0, _ => none
  | Nat.succ f, cs =>
    match parseValue f cs with
    | none => none
    | some (v, rest) =>
      match skipWs rest with
      | ',' :: rest2 => (parseElems f rest2).map (fun p => (v :: p.1, p.2))
      | ']' :: rest2 => some ([v], rest2)
      | _ => none

end

/-- Embedding of `json.loads` on the callback-token fragment: parse one value
and require only whitespace to remain. -/
def loads (s : String) : Option JsonValue :=
  match parseValue (s.toList.length + 1) s.toList with
  | some (v, rest) => if skipWs rest = [] then some v else none
  | none => none

/-- Subscripting a Python dict built by `json.loads`: on duplicate keys the
later member wins, as in dict construction. -/
def dictLookup (k : String) : List (String × JsonValue) → Option JsonValue
  | [] => none
  | (k2, v) :: rest =>
    match dictLookup k rest with
    | some v2 => some v2
    | none => if k2 = k then some v else none

/-- Exceptions out of `deserialize_product_id_and_amount`. -/
inductive DecodeError where
  /-- `json.JSONDecodeError` raised by `json.loads`. -/
  | jsonDecode : DecodeError
  /-- a missing `'id'` or `'amount'` key in the decoded dict. -/
  | keyError : DecodeError
  /-- subscripting a decoded value that is not a dict. -/
  | typeError : DecodeError
deriving Repr, DecidableEq

/-- Embedding of `deserialize_product_id_and_amount` (telegram_bot.py:326-329):
`json.loads` followed by the `['id']` and `['amount']` subscripts.  The two
components stay JSON values, as in the dynamically typed source. -/
def deserialize_product_id_and_amount (serialized_data : String) :
    Except DecodeError (JsonValue × JsonValue) :=
  match loads serialized_data with
  | none => .error .jsonDecode
  | some (JsonValue.obj members) =>
    match dictLookup "id" members, dictLookup "amount" members with
    | some i, some a => .ok (i, a)
    | _, _ => .error .keyError
  | some _ => .error .typeError

/-! ## The conversation engine

Embedding of the `ElasticpathShopBot` class (telegram_bot.py:34-314).  An
inbound telegram update is an `Event`; the per-user Redis entry and the
transient `context.user_data['page']` cursor are threaded explicitly; each
state handler returns the cursor after the event (Python mutates
`user_data` in place, so cursor writes survive a later exception) together
with either the next-state string and the emitted render instructions, or
the propagated exception. -/

/-- State-name constants (telegram_bot.py:16-21). -/
def START_STATE : String := "start state"

/-- See `START_STATE`. -/
def PRODUCT_LIST_STATE : String := "product list state"

/-- See `START_STATE`. -/
def PRODUCT_DESCRIPTION_STATE : String := "product description state"

/-- See `START_STATE`. -/
def CART_STATE : String := "cart state"

/-- See `START_STATE`. -/
def WAIT_EMAIL_STATE : String := "wait for email state"

/-- See `START_STATE`. -/
def WAIT_LOCATION_STATE : String := "wait for location state"

/-- Callback-data sentinel constants (telegram_bot.py:23-27). -/
def PRODUCT_LIST_CALLBACK_DATA : String := "product list callback"

/-- See `PRODUCT_LIST_CALLBACK_DATA`. -/
def SHOW_CART_CALLBACK_DATA : String := "show cart callback"

/-- See `PRODUCT_LIST_CALLBACK_DATA`. -/
def CHECKOUT_CALLBACK_DATA : String := "order callback"

/-- See `PRODUCT_LIST_CALLBACK_DATA`. -/
def NEXT_PAGE_CALLBACK_DATA : String := "next page"

/-- See `PRODUCT_LIST_CALLBACK_DATA`. -/
def PREVIOUS_PAGE_CALLBACK_DATA : String := "previous page"

/-- The `user_data` key of the page cursor (telegram_bot.py:29). -/
def PRODUCT_LIST_PAGE : String := "page"

/-- Page size constant (telegram_bot.py:30). -/
def PRODUCT_LIST_PAGE_SIZE : Int := 8

/-- Amounts offered by the add-to-cart buttons (telegram_bot.py:31). -/
def AVAILABLE_PRODUCT_AMOUNTS : List Int := [1]

/-- Product snapshot (elasticpath/models.py:5-21). -/
structure Product where
  id : String
  name : String
  description : String
  formatted_price : String
  stock_level : Int
  stock_availability : String
  main_image_id : Option String
deriving Repr, DecidableEq

/-- Cart snapshot (elasticpath/models.py:24-34); the reference is the chat id
the bot passes to `get_or_create_cart`. -/
structure Cart where
  reference : Int
  id : String
  formatted_price : String
deriving Repr, DecidableEq

/-- Cart line snapshot (elasticpath/models.py:37-50). -/
structure CartItem where
  id : String
  name : String
  product_id : String
  quantity : Int
  description : String
  formatted_price : String
deriving Repr, DecidableEq

/-- Modelled from the spec: the `ShopEntry` record of spec section 3, "id plus
an open field map (address, longitude, latitude, alias)".  The `Entry` class
and the `flows.get_all_entries` operation are imported and called by
telegram_bot.py, but their definitions are not among the provided sources.
Field values are opaque strings: the coordinate fields are floats that only
the external geopy library consumes. -/
structure Entry where
  id : String
  fields : String → String

/-- Inbound telegram update, as `handle_users_reply` distinguishes them
(telegram_bot.py:52-59): a message carrying text and possibly a location
share, or a callback query carrying its data string.  Coordinates are opaque
string tokens (floats are never computed on in this repository).  An update
with neither field makes the handler return without any effect and is not
modeled. -/
inductive Event where
  | message (text : String) (location : Option (String × String)) : Event
  | callback (data : String) : Event
deriving Repr, DecidableEq

/-- Python exceptions that can escape the engine. -/
inductive BotError where
  /-- an `httpx.HTTPStatusError` propagated out of an `ElasticpathAPI` call. -/
  | api : BotError
  /-- `geocoding.UnknownAddressError` from `fetch_coordinates`. -/
  | unknownAddress : BotError
  /-- a Python `KeyError`: a missing dict key (the `_state_functions` table or
  `context.user_data`). -/
  | keyError (key : String) : BotError
  /-- a Python `AttributeError`: attribute access on `None`
  (`update.callback_query.data` for a message update, or
  `update.message.location` for a callback update). -/
  | attributeError : BotError
  /-- a Python `ValueError`: `min()` over an empty entry collection. -/
  | valueError : BotError
  /-- a failure inside `deserialize_product_id_and_amount`. -/
  | decode (e : DecodeError) : BotError
deriving Repr, DecidableEq

/-- Outbound render instructions the handlers emit through the telegram
transport, in emission order. -/
inductive Render where
  /-- `update.callback_query.delete_message()`. -/
  | deleteMessage : Render
  /-- `update.callback_query.answer(...)`. -/
  | answerCallback (text : Option String) : Render
  /-- the product-list message of `show_product_list`: requested offset, the
  products displayed as buttons, and the navigation buttons by callback data. -/
  | productList (offset : Int) (products : List Product) (nav_buttons : List String) : Render
  /-- the product-description photo message of `show_product_description`,
  with its buttons by callback data. -/
  | productDetail (product : Product) (amount_in_cart : Int) (image_link : String)
      (buttons : List String) : Render
  /-- the cart message of `show_cart`, with its buttons by callback data. -/
  | cartView (cart_items : List CartItem) (total_price : String) (buttons : List String) : Render
  /-- a plain `reply_text`. -/
  | text (message : String) : Render
deriving Repr, DecidableEq

/-- External collaborators, as one oracle record: the Elasticpath API wrapper
(spec section 4.2; every call can raise an HTTP error), the geocoder and the
geodesic-distance computation (spec section 4.3), and the bot's `shop_flow`
constructor argument.  `amount_of_product_in_cart`, like `get_all_entries`,
is called by telegram_bot.py but absent from the provided sources and is kept
abstract per the spec's Catalog Client contract. -/
structure Env where
  get_products : Int → Int → Except BotError (List Product)
  get_product : JsonValue → Except BotError Product
  get_or_create_cart : Int → Except BotError Cart
  add_product_to_cart : Product → Cart → JsonValue → Except BotError Unit
  get_cart_items : Cart → Except BotError (List CartItem)
  remove_cart_item : Cart → String → Except BotError Unit
  amount_of_product_in_cart : String → Cart → Except BotError Int
  get_file : Option String → Except BotError String
  get_all_entries : String → Except BotError (List Entry)
  fetch_coordinates : String → Except BotError (String × String)
  geodesic_meters : String × String → String × String → Int
  shop_flow : String

/-- Embedding of `navigation_buttons` (telegram_bot.py:215-237): a previous
button when the cursor is positive, and a next button when the lookahead
fetch of the following page returns at least one product.  Reading the cursor
from `context.user_data` raises a `KeyError` when it was never set. -/
def navigation_buttons (env : Env) (page : Option Int) : Except BotError (List String) :=
  match page with
  | none => .error (.keyError PRODUCT_LIST_PAGE)
  | some current_page =>
    match env.get_products PRODUCT_LIST_PAGE_SIZE (PRODUCT_LIST_PAGE_SIZE * (current_page + 1)) with
    | .error e => .error e
    | .ok next_page_products =>
      .ok ((if current_page > 0 then [PREVIOUS_PAGE_CALLBACK_DATA] else []) ++
        (if next_page_products.length > 0 then [NEXT_PAGE_CALLBACK_DATA] else []))

/-- Embedding of `show_product_list` (telegram_bot.py:185-213): delete the
previous page when arriving via a callback, fetch the page at the cursor,
attach one button per product and the navigation buttons, answer the callback
when there is one, and send the list. -/
def show_product_list (env : Env) (ev : Event) (page : Option Int) : Except BotError (List Render) :=
  let pre : List Render := match ev with
    | .callback _ => [.deleteMessage]
    | .message _ _ => []
  match page with
  | none => .error (.keyError PRODUCT_LIST_PAGE)
  | some p =>
    match env.get_products PRODUCT_LIST_PAGE_SIZE (PRODUCT_LIST_PAGE_SIZE * p) with
    | .error e => .error e
    | .ok products_to_display =>
      match navigation_buttons env page with
      | .error e => .error e
      | .ok nav =>
        match ev with
        | .message _ _ =>
          .ok (pre ++ [.productList (PRODUCT_LIST_PAGE_SIZE * p) products_to_display nav])
        | .callback _ =>
          .ok (pre ++ [.answerCallback none,
            .productList (PRODUCT_LIST_PAGE_SIZE * p) products_to_display nav])

/-- Embedding of `show_product_description` (telegram_bot.py:239-282): answer
the callback, fetch the product, the cart, the in-cart amount and the main
image link, send the photo message with add/menu/cart buttons (the add
buttons carry serialized callback tokens), and delete the previous message. -/
def show_product_description (env : Env) (chat_id : Int) (product_id : JsonValue) :
    Except BotError (List Render) :=
  match env.get_product product_id with
  | .error e => .error e
  | .ok product =>
    match env.get_or_create_cart chat_id with
    | .error e => .error e
    | .ok cart =>
      match env.amount_of_product_in_cart product.id cart with
      | .error e => .error e
      | .ok amount_in_cart =>
        match env.get_file product.main_image_id with
        | .error e => .error e
        | .ok link =>
          .ok [.answerCallback none,
            .productDetail product amount_in_cart link
              (AVAILABLE_PRODUCT_AMOUNTS.map
                  (fun amount => serialize_product_id_and_amount product.id amount) ++
                 [PRODUCT_LIST_CALLBACK_DATA, SHOW_CART_CALLBACK_DATA]),
            .deleteMessage]

/-- Embedding of `show_cart` (telegram_bot.py:284-314): answer the callback,
fetch the cart and its items, send the cart message with one remove button
per item plus checkout and menu buttons, and delete the previous message. -/
def show_cart (env : Env) (chat_id : Int) : Except BotError (List Render) :=
  match env.get_or_create_cart chat_id with
  | .error e => .error e
  | .ok cart =>
    match env.get_cart_items cart with
    | .error e => .error e
    | .ok cart_items =>
      .ok [.answerCallback none,
        .cartView cart_items cart.formatted_price
          (cart_items.map (fun cart_item => cart_item.id) ++
            [CHECKOUT_CALLBACK_DATA, PRODUCT_LIST_CALLBACK_DATA]),
        .deleteMessage]

/-- Embedding of `handle_start_state` (telegram_bot.py:70-74): reset the page
cursor to 0, show the product list, next state `PRODUCT_LIST_STATE`. -/
def handle_start_state (env : Env) (_chat_id : Int) (ev : Event) (_page : Option Int) :
    Option Int × Except BotError (String × List Render) :=
  (some 0, match show_product_list env ev (some 0) with
    | .error e => .error e
    | .ok renders => .ok (PRODUCT_LIST_STATE, renders))

/-- Embedding of `handle_product_list_state` (telegram_bot.py:76-91): the
next-page token increments the cursor and re-renders, the previous-page token
decrements it and re-renders (no floor), and any other callback data is taken
to be a product id.  A message update has no `callback_query` and raises an
`AttributeError`. -/
def handle_product_list_state (env : Env) (chat_id : Int) (ev : Event) (page : Option Int) :
    Option Int × Except BotError (String × List Render) :=
  match ev with
  | .message _ _ => (page, .error .attributeError)
  | .callback callback_data =>
    if callback_data = NEXT_PAGE_CALLBACK_DATA then
      match page with
      | none => (none, .error (.keyError PRODUCT_LIST_PAGE))
      | some p =>
        (some (p + 1), match show_product_list env ev (some (p + 1)) with
          | .error e => .error e
          | .ok renders => .ok (PRODUCT_LIST_STATE, renders))
    else if callback_data = PREVIOUS_PAGE_CALLBACK_DATA then
      match page with
      | none => (none, .error (.keyError PRODUCT_LIST_PAGE))
      | some p =>
        (some (p - 1), match show_product_list env ev (some (p - 1)) with
          | .error e => .error e
          | .ok renders => .ok (PRODUCT_LIST_STATE, renders))
    else
      (page, match show_product_description env chat_id (JsonValue.str callback_data) with
        | .error e => .error e
        | .ok renders => .ok (PRODUCT_DESCRIPTION_STATE, renders))

/-- Embedding of `handle_product_description_state` (telegram_bot.py:93-116):
the menu token re-renders the list, the cart token shows the cart, and any
other callback data is deserialized as an add-to-cart token whose product is
fetched and added to the cart; decode failures propagate. -/
def handle_product_description_state (env : Env) (chat_id : Int) (ev : Event) (page : Option Int) :
    Option Int × Except BotError (String × List Render) :=
  match ev with
  | .message _ _ => (page, .error .attributeError)
  | .callback callback_data =>
    if callback_data = PRODUCT_LIST_CALLBACK_DATA then
      (page, match show_product_list env ev page with
        | .error e => .error e
        | .ok renders => .ok (PRODUCT_LIST_STATE, renders))
    else if callback_data = SHOW_CART_CALLBACK_DATA then
      (page, match show_cart env chat_id with
        | .error e => .error e
        | .ok renders => .ok (CART_STATE, renders))
    else
      (page, match deserialize_product_id_and_amount callback_data with
        | .error e => .error (.decode e)
        | .ok (product_id, amount) =>
          match env.get_or_create_cart chat_id with
          | .error e => .error e
          | .ok cart =>
            match env.get_product product_id with
            | .error e => .error e
            | .ok product =>
              match env.add_product_to_cart product cart amount with
              | .error e => .error e
              | .ok _ =>
                match show_product_description env chat_id product_id with
                | .error e => .error e
                | .ok renders =>
                  .ok (PRODUCT_DESCRIPTION_STATE, .answerCallback (some "Added") :: renders))

/-- Embedding of `handle_cart_state` (telegram_bot.py:118-136): the menu token
re-renders the list, the checkout token prompts for a location, and any other
callback data is taken to be a cart item id to remove. -/
def handle_cart_state (env : Env) (chat_id : Int) (ev : Event) (page : Option Int) :
    Option Int × Except BotError (String × List Render) :=
  match ev with
  | .message _ _ => (page, .error .attributeError)
  | .callback callback_data =>
    if callback_data = PRODUCT_LIST_CALLBACK_DATA then
      (page, match show_product_list env ev page with
        | .error e => .error e
        | .ok renders => .ok (PRODUCT_LIST_STATE, renders))
    else if callback_data = CHECKOUT_CALLBACK_DATA then
      (page, .ok (WAIT_LOCATION_STATE, [.text "Please provide you location or address."]))
    else
      (page, match env.get_or_create_cart chat_id with
        | .error e => .error e
        | .ok cart =>
          match env.remove_cart_item cart callback_data with
          | .error e => .error e
          | .ok _ =>
            match show_cart env chat_id with
            | .error e => .error e
            | .ok renders => .ok (CART_STATE, renders))

/-- Embedding of `shop_distance_calculator` (telegram_bot.py:332-341).  The
`int(geopy.distance.distance(...).meters)` computation is the external
collaborator `geodesic` (spec section 4.3); the closure pairs the user
position with the `Longitude` and `Latitude` fields of a shop entry. -/
def shop_distance_calculator (geodesic : String × String → String × String → Int)
    (longitude latitude : String) : Entry → Int :=
  fun shop_entry =>
    geodesic (longitude, latitude) (shop_entry.fields "Longitude", shop_entry.fields "Latitude")

instance {ε α : Type} [DecidableEq ε] [DecidableEq α] : DecidableEq (Except ε α) :=
  fun a b =>
    match a, b with
    | .ok x, .ok y =>
      if h : x = y then isTrue (by rw [h]) else isFalse (by simp [h])
    | .error e, .error f =>
      if h : e = f then isTrue (by rw [h]) else isFalse (by simp [h])
    | .ok _, .error _ => isFalse (by simp)
    | .error _, .ok _ => isFalse (by simp)

/-- Python `min(iterable, key=key)`: a left fold keeping the incumbent unless
a strictly smaller key appears, so the first element attaining the least key
wins; `none` for the empty list, where Python raises a `ValueError`. -/
def pyMin {α : Type} (key : α → Int) : List α → Option α
  | [] => none
  | x :: xs => some (xs.foldl (fun best e => if key e < key best then e else best) x)

/-- Embedding of `show_delivery_options` (telegram_bot.py:164-183): the
delivery-pricing tiers on the distance in meters to the nearest shop. -/
def show_delivery_options (nearest_shop : Entry) (shop_distance : Int) : Render :=
  if shop_distance < 500 then
    .text ("Delivery is free! Also you can get your order at " ++
      nearest_shop.fields "Address" ++ ". It is only " ++ toString shop_distance ++
      " meters away from you.")
  else if shop_distance < 5000 then .text "Delivery price is 100 rubles."
  else if shop_distance < 20000 then .text "Delivery price is 300 rubles."
  else .text "Sorry, you are too far away from the nearest shop :(."

/-- The successful tail of `handle_location_state` (telegram_bot.py:150-162):
build the distance closure, select the nearest shop with `min`, and render
the delivery options; next state `START_STATE`. -/
def handle_location_found (env : Env) (coords : String × String) :
    Except BotError (String × List Render) :=
  let shop_distance := shop_distance_calculator env.geodesic_meters coords.1 coords.2
  match env.get_all_entries env.shop_flow with
  | .error e => .error e
  | .ok entries =>
    match pyMin shop_distance entries with
    | none => .error .valueError
    | some nearest_shop =>
      .ok (START_STATE, [show_delivery_options nearest_shop (shop_distance nearest_shop)])

/-- Embedding of `handle_location_state` (telegram_bot.py:138-162): a shared
location is used directly; otherwise the message text is geocoded, an
unknown address re-prompts and stays, and other geocoder failures propagate. -/
def handle_location_state (env : Env) (_chat_id : Int) (ev : Event) (page : Option Int) :
    Option Int × Except BotError (String × List Render) :=
  match ev with
  | .callback _ => (page, .error .attributeError)
  | .message text location =>
    (page, match location with
      | none =>
        match env.fetch_coordinates text with
        | .error .unknownAddress =>
          .ok (WAIT_LOCATION_STATE, [.text "Location is not recognized. Please try again."])
        | .error e => .error e
        | .ok coords => handle_location_found env coords
      | some coords => handle_location_found env coords)

/-- Embedding of the `_state_functions` dispatch table (telegram_bot.py:42-48).
Note `WAIT_EMAIL_STATE` has no entry. -/
def state_functions (state : String) :
    Option (Env → Int → Event → Option Int →
      Option Int × Except BotError (String × List Render)) :=
  if state = START_STATE then some handle_start_state
  else if state = PRODUCT_LIST_STATE then some handle_product_list_state
  else if state = PRODUCT_DESCRIPTION_STATE then some handle_product_description_state
  else if state = CART_STATE then some handle_cart_state
  else if state = WAIT_LOCATION_STATE then some handle_location_state
  else none

/-- The text a message carries or the data a callback carries, as
`handle_users_reply` extracts it (telegram_bot.py:52-57). -/
def event_reply : Event → String
  | .message text _ => text
  | .callback data => data

/-- The state `handle_users_reply` dispatches on (telegram_bot.py:60-64):
`/start` forces the start state, a missing store entry defaults to it, and
any other stored token is used as-is. -/
def resolved_state (user_reply : String) (state_in_db : Option String) : String :=
  if user_reply = "/start" then START_STATE
  else match state_in_db with
    | none => START_STATE
    | some s => s

/-- Embedding of `handle_users_reply` (telegram_bot.py:50-68): resolve the
state, look its handler up (a `KeyError` escapes for a token outside the
table), run it, and only after it returns normally store the next state.
The result pairs the Redis entry and the cursor after the event with the
handler outcome. -/
def handle_users_reply (env : Env) (chat_id : Int) (ev : Event) (db : Option String)
    (page : Option Int) : (Option String × Option Int) × Except BotError (List Render) :=
  let user_state := resolved_state (event_reply ev) db
  match state_functions user_state with
  | none => ((db, page), .error (.keyError user_state))
  | some state_handler =>
    match state_handler env chat_id ev page with
    | (page2, .ok (next_state, renders)) => ((some next_state, page2), .ok renders)
    | (page2, .error e) => ((db, page2), .error e)

/-- Fold `handle_users_reply` over an event sequence, keeping the Redis entry
and cursor; the telegram dispatcher catches and logs handler exceptions, so a
failed event leaves the loop running. -/
def run_events (env : Env) (chat_id : Int) :
    List Event → Option String × Option Int → Option String × Option Int
  | [], s => s
  | ev :: evs, s => run_events env chat_id evs (handle_users_reply env chat_id ev s.1 s.2).1

/-- The page cursor is absent or nonnegative. -/
def page_nonneg : Option Int → Prop
  | none => True
  | some p => 0 ≤ p

instance (page : Option Int) : Decidable (page_nonneg page) :=
  match page with
  | none => inferInstanceAs (Decidable True)
  | some p => inferInstanceAs (Decidable (0 ≤ p))

/-- The page cursor is present and positive: the condition under which
`navigation_buttons` displays the previous-page button. -/
def page_positive : Option Int → Prop
  | none => False
  | some p => 0 < p

instance (page : Option Int) : Decidable (page_positive page) :=
  match page with
  | none => inferInstanceAs (Decidable False)
  | some p => inferInstanceAs (Decidable (0 < p))

/-- An event sequence sends the previous-page token to a user in the product
list state only while the cursor is positive: the discipline enforced by
clicking only displayed buttons (`navigation_buttons` offers the previous
button only then). -/
def prev_only_when_positive (env : Env) (chat_id : Int) :
    List Event → Option String × Option Int → Prop
  | [], _ => True
  | ev :: evs, s =>
    ((ev = Event.callback PREVIOUS_PAGE_CALLBACK_DATA ∧ s.1 = some PRODUCT_LIST_STATE) →
        page_positive s.2) ∧
      prev_only_when_positive env chat_id evs (handle_users_reply env chat_id ev s.1 s.2).1

/-- A sample product used by concrete witness environments. -/
def sampleProduct : Product :=
  { id := "prod-1", name := "Fish", description := "A tasty fish",
    formatted_price := "10 rub", stock_level := 3, stock_availability := "in stock",
    main_image_id := some "img-1" }

/-- A concrete environment whose calls all succeed with empty collections. -/
def trivEnv : Env :=
  { get_products := fun _ _ => .ok []
    get_product := fun _ => .ok sampleProduct
    get_or_create_cart := fun chat_id => .ok { reference := chat_id, id := "cart-1", formatted_price := "0 rub" }
    add_product_to_cart := fun _ _ _ => .ok ()
    get_cart_items := fun _ => .ok []
    remove_cart_item := fun _ _ => .ok ()
    amount_of_product_in_cart := fun _ _ => .ok 0
    get_file := fun _ => .ok "http://files/img-1"
    get_all_entries := fun _ => .ok []
    fetch_coordinates := fun _ => .ok ("37.6", "55.7")
    geodesic_meters := fun _ _ => 0
    shop_flow := "Pizzeria" }

/-- A concrete environment whose catalog holds exactly one page: eight
products at offset 0 and nothing beyond. -/
def pagedEnv : Env :=
  { trivEnv with
    get_products := fun _ offset => .ok (if offset = 0 then List.replicate 8 sampleProduct else []) }

/-- A concrete environment whose catalog calls fail with an HTTP error. -/
def failEnv : Env :=
  { trivEnv with get_products := fun _ _ => .error .api }

/-- A concrete shop entry used by witness environments: an address and opaque
coordinate tokens. -/
def shopEntryA : Entry :=
  { id := "shop-a",
    fields := fun field =>
      if field = "Address" then "Lenina 1"
      else if field = "Longitude" then "37.61" else "55.75" }

/-- A second concrete shop entry. -/
def shopEntryB : Entry :=
  { id := "shop-b",
    fields := fun field =>
      if field = "Address" then "Mira 2"
      else if field = "Longitude" then "37.62" else "55.76" }

/-- A concrete environment holding two shop entries that the distance oracle
places at the same distance from every point. -/
def shopsEnv : Env :=
  { trivEnv with
    get_all_entries := fun _ => .ok [shopEntryA, shopEntryB]
    geodesic_meters := fun _ _ => 700 }

/-- The fold inside `pyMin`: the running best of Python's `min(key=...)` over
`xs` started at incumbent `b`. -/
def pyFold {α : Type} (key : α → Int) (b : α) (xs : List α) : α :=
  xs.foldl (fun best e => if key e < key best then e else best) b

/-- The button discipline `prev_only_when_positive` is decidable, so concrete
event sequences can be checked by evaluation. -/
def prev_only_when_positive_dec (env : Env) (chat_id : Int) :
    (evs : List Event) → (s : Option String × Option Int) →
      Decidable (prev_only_when_positive env chat_id evs s)
  | [], _ => isTrue trivial
  | ev :: evs, s =>
    @instDecidableAnd _ _ inferInstance
      (prev_only_when_positive_dec env chat_id evs (handle_users_reply env chat_id ev s.1 s.2).1)

instance (env : Env) (chat_id : Int) (evs : List Event) (s : Option String × Option Int) :
    Decidable (prev_only_when_positive env chat_id evs s) :=
  prev_only_when_positive_dec env chat_id evs s

/-! ## Helper lemmas: characters, digits, and the codec round trip -/

theorem char_toNat_ofNat {n : Nat} (h : n.isValidChar) : (Char.ofNat n).toNat = n := by
  rw [Char.ofNat, dif_pos h]; rfl

theorem char_valid_toNat (c : Char) :
    c.toNat < 0xD800 ∨ (0xDFFF < c.toNat ∧ c.toNat < 0x110000) := c.valid

theorem digitChar10_toNat {d : Nat} (h : d < 10) : (digitChar10 d).toNat = 48 + d :=
  char_toNat_ofNat (Or.inl (by omega))

theorem isDigitChar_digitChar10 {d : Nat} (h : d < 10) : isDigitChar (digitChar10 d) = true := by
  simp [isDigitChar, digitChar10_toNat h]; omega

theorem isDigitChar_bounds {c : Char} (h : isDigitChar c = true) :
    48 ≤ c.toNat ∧ c.toNat ≤ 57 := by
  simpa [isDigitChar] using h

theorem hexVal_hexDigitChar {x : Nat} (h : x < 16) : hexVal (hexDigitChar x) = some x := by
  interval_cases x <;> rfl

theorem parseU4_hex4 {n : Nat} (h : n < 0x10000) (rest : List Char) :
    parseU4 (hex4 n ++ rest) = some (n, rest) := by
  have h1 : n / 4096 % 16 < 16 := Nat.mod_lt _ (by omega)
  have h2 : n / 256 % 16 < 16 := Nat.mod_lt _ (by omega)
  have h3 : n / 16 % 16 < 16 := Nat.mod_lt _ (by omega)
  have h4 : n % 16 < 16 := Nat.mod_lt _ (by omega)
  simp [hex4, parseU4, hexVal_hexDigitChar h1, hexVal_hexDigitChar h2,
    hexVal_hexDigitChar h3, hexVal_hexDigitChar h4]
  omega

theorem parseStringBodyAux_cons (f : Nat) (c : Char) (rest : List Char) :
    parseStringBodyAux (f + 1) (c :: rest) =
      if c = '"' then some ([], rest)
      else if c = '\\' then
        match parseEscape rest with
        | none => none
        | some (d, rest2) => (parseStringBodyAux f rest2).map (fun p => (d :: p.1, p.2))
      else if c.toNat < 0x20 then none
      else (parseStringBodyAux f rest).map (fun p => (c :: p.1, p.2)) := rfl

theorem parseEscape_u {n : Nat} (h : n < 0xD800 ∨ 0xE000 ≤ n) (h2 : n < 0x10000)
    (tail : List Char) :
    parseEscape ('u' :: (hex4 n ++ tail)) = some (Char.ofNat n, tail) := by
  simp [parseEscape, parseU4_hex4 h2, h]

theorem parseEscape_surrogate {v : Nat} (hv : v < 0x100000) (tail : List Char) :
    parseEscape ('u' :: (hex4 (0xD800 + v / 0x400) ++
      ('\\' :: 'u' :: (hex4 (0xDC00 + v % 0x400) ++ tail)))) =
      some (Char.ofNat (0x10000 + v), tail) := by
  have hdiv : v / 0x400 < 0x400 := by omega
  have hmod : v % 0x400 < 0x400 := Nat.mod_lt _ (by omega)
  simp only [parseEscape, if_true,
    parseU4_hex4 (show 0xD800 + v / 0x400 < 0x10000 by omega),
    parseU4_hex4 (show 0xDC00 + v % 0x400 < 0x10000 by omega)]
  rw [if_neg (by omega), if_pos (by omega), if_pos (⟨trivial, trivial⟩ : True ∧ True),
    if_pos (by constructor <;> omega)]
  have hval : 0x10000 + (0xD800 + v / 0x400 - 0xD800) * 0x400 +
      (0xDC00 + v % 0x400 - 0xDC00) = 0x10000 + v := by omega
  rw [hval]

theorem parseStringBodyAux_backslash (f : Nat) (rest : List Char) (d : Char)
    (rest2 : List Char) (h : parseEscape rest = some (d, rest2)) :
    parseStringBodyAux (f + 1) ('\\' :: rest) =
      (parseStringBodyAux f rest2).map (fun p => (d :: p.1, p.2)) := by
  rw [parseStringBodyAux_cons, if_neg (by decide), if_pos rfl, h]

theorem parseStringBodyAux_plain (f : Nat) (c : Char) (rest : List Char)
    (h1 : c ≠ '"') (h2 : c ≠ '\\') (h3 : ¬(c.toNat < 0x20)) :
    parseStringBodyAux (f + 1) (c :: rest) =
      (parseStringBodyAux f rest).map (fun p => (c :: p.1, p.2)) := by
  rw [parseStringBodyAux_cons, if_neg h1, if_neg h2, if_neg h3]

theorem parseStringBodyAux_escape (s : List Char) :
    ∀ (f : Nat), (escapeStr s).length < f → ∀ (rest : List Char),
      parseStringBodyAux f (escapeStr s ++ '"' :: rest) = some (s, rest) := by
  induction s with
  | nil =>
    intro f hf rest
    obtain ⟨g, rfl⟩ : ∃ g, f = g + 1 := ⟨f - 1, by omega⟩
    simp [escapeStr, parseStringBodyAux_cons]
  | cons c cs ih =>
    intro f hf rest
    simp only [escapeStr, List.length_append] at hf
    show parseStringBodyAux f ((escapeChar c ++ escapeStr cs) ++ '"' :: rest) =
      some (c :: cs, rest)
    rw [List.append_assoc]
    by_cases h1 : c = '"'
    · subst h1
      rw [show escapeChar '"' = ['\\', '"'] from rfl] at hf ⊢
      simp only [List.length_cons, List.length_nil] at hf
      obtain ⟨g, rfl⟩ : ∃ g, f = g + 1 := ⟨f - 1, by omega⟩
      have hih := ih g (by omega) rest
      simp only [List.cons_append, List.nil_append]
      rw [parseStringBodyAux_backslash g _ _ _
        (rfl : parseEscape ('"' :: (escapeStr cs ++ '"' :: rest)) =
          some ('"', escapeStr cs ++ '"' :: rest)), hih]
      rfl
    · by_cases h2 : c = '\\'
      · subst h2
        rw [show escapeChar '\\' = ['\\', '\\'] from rfl] at hf ⊢
        simp only [List.length_cons, List.length_nil] at hf
        obtain ⟨g, rfl⟩ : ∃ g, f = g + 1 := ⟨f - 1, by omega⟩
        have hih := ih g (by omega) rest
        simp only [List.cons_append, List.nil_append]
        rw [parseStringBodyAux_backslash g _ _ _
          (rfl : parseEscape ('\\' :: (escapeStr cs ++ '"' :: rest)) =
            some ('\\', escapeStr cs ++ '"' :: rest)), hih]
        rfl
      · by_cases h3 : c.toNat = 8
        · have he : escapeChar c = ['\\', 'b'] := by simp [escapeChar, h1, h2, h3]
          have hc : Char.ofNat 8 = c := by rw [← h3, Char.ofNat_toNat]
          rw [he] at hf ⊢
          simp only [List.length_cons, List.length_nil] at hf
          obtain ⟨g, rfl⟩ : ∃ g, f = g + 1 := ⟨f - 1, by omega⟩
          have hih := ih g (by omega) rest
          simp only [List.cons_append, List.nil_append]
          rw [parseStringBodyAux_backslash g _ _ _
            (rfl : parseEscape ('b' :: (escapeStr cs ++ '"' :: rest)) =
              some (Char.ofNat 8, escapeStr cs ++ '"' :: rest)), hih, hc]
          rfl
        · by_cases h4 : c.toNat = 9
          · have he : escapeChar c = ['\\', 't'] := by simp [escapeChar, h1, h2, h3, h4]
            have hc : Char.ofNat 9 = c := by rw [← h4, Char.ofNat_toNat]
            rw [he] at hf ⊢
            simp only [List.length_cons, List.length_nil] at hf
            obtain ⟨g, rfl⟩ : ∃ g, f = g + 1 := ⟨f - 1, by omega⟩
            have hih := ih g (by omega) rest
            simp only [List.cons_append, List.nil_append]
            rw [parseStringBodyAux_backslash g _ _ _
              (rfl : parseEscape ('t' :: (escapeStr cs ++ '"' :: rest)) =
                some (Char.ofNat 9, escapeStr cs ++ '"' :: rest)), hih, hc]
            rfl
          · by_cases h5 : c.toNat = 10
            · have he : escapeChar c = ['\\', 'n'] := by simp [escapeChar, h1, h2, h3, h4, h5]
              have hc : Char.ofNat 10 = c := by rw [← h5, Char.ofNat_toNat]
              rw [he] at hf ⊢
              simp only [List.length_cons, List.length_nil] at hf
              obtain ⟨g, rfl⟩ : ∃ g, f = g + 1 := ⟨f - 1, by omega⟩
              have hih := ih g (by omega) rest
              simp only [List.cons_append, List.nil_append]
              rw [parseStringBodyAux_backslash g _ _ _
                (rfl : parseEscape ('n' :: (escapeStr cs ++ '"' :: rest)) =
                  some (Char.ofNat 10, escapeStr cs ++ '"' :: rest)), hih, hc]
              rfl
            · by_cases h6 : c.toNat = 12
              · have he : escapeChar c = ['\\', 'f'] := by
                  simp [escapeChar, h1, h2, h3, h4, h5, h6]
                have hc : Char.ofNat 12 = c := by rw [← h6, Char.ofNat_toNat]
                rw [he] at hf ⊢
                simp only [List.length_cons, List.length_nil] at hf
                obtain ⟨g, rfl⟩ : ∃ g, f = g + 1 := ⟨f - 1, by omega⟩
                have hih := ih g (by omega) rest
                simp only [List.cons_append, List.nil_append]
                rw [parseStringBodyAux_backslash g _ _ _
                  (rfl : parseEscape ('f' :: (escapeStr cs ++ '"' :: rest)) =
                    some (Char.ofNat 12, escapeStr cs ++ '"' :: rest)), hih, hc]
                rfl
              · by_cases h7 : c.toNat = 13
                · have he : escapeChar c = ['\\', 'r'] := by
                    simp [escapeChar, h1, h2, h3, h4, h5, h6, h7]
                  have hc : Char.ofNat 13 = c := by rw [← h7, Char.ofNat_toNat]
                  rw [he] at hf ⊢
                  simp only [List.length_cons, List.length_nil] at hf
                  obtain ⟨g, rfl⟩ : ∃ g, f = g + 1 := ⟨f - 1, by omega⟩
                  have hih := ih g (by omega) rest
                  simp only [List.cons_append, List.nil_append]
                  rw [parseStringBodyAux_backslash g _ _ _
                    (rfl : parseEscape ('r' :: (escapeStr cs ++ '"' :: rest)) =
                      some (Char.ofNat 13, escapeStr cs ++ '"' :: rest)), hih, hc]
                  rfl
                · by_cases h8 : 0x20 ≤ c.toNat ∧ c.toNat ≤ 0x7e
                  · have he : escapeChar c = [c] := by
                      simp [escapeChar, h1, h2, h3, h4, h5, h6, h7, h8]
                    rw [he] at hf ⊢
                    simp only [List.length_cons, List.length_nil] at hf
                    obtain ⟨g, rfl⟩ : ∃ g, f = g + 1 := ⟨f - 1, by omega⟩
                    have hih := ih g (by omega) rest
                    simp only [List.cons_append, List.nil_append]
                    rw [parseStringBodyAux_plain g c _ h1 h2 (by omega), hih]
                    rfl
                  · by_cases h9 : c.toNat < 0x10000
                    · have he : escapeChar c = '\\' :: 'u' :: hex4 c.toNat := by
                        simp [escapeChar, h1, h2, h3, h4, h5, h6, h7, h8, h9]
                      have hval : c.toNat < 0xD800 ∨ 0xE000 ≤ c.toNat := by
                        rcases char_valid_toNat c with h | h
                        · exact Or.inl h
                        · exact Or.inr (by omega)
                      rw [he] at hf ⊢
                      simp only [List.length_cons, List.length_append, List.length_nil,
                        hex4] at hf
                      obtain ⟨g, rfl⟩ : ∃ g, f = g + 1 := ⟨f - 1, by omega⟩
                      have hih := ih g (by omega) rest
                      simp only [List.cons_append, List.append_assoc]
                      rw [parseStringBodyAux_backslash g _ _ _
                        (parseEscape_u hval h9 (escapeStr cs ++ '"' :: rest)), hih,
                        Char.ofNat_toNat]
                      rfl
                    · have he : escapeChar c =
                          ('\\' :: 'u' :: hex4 (0xD800 + (c.toNat - 0x10000) / 0x400)) ++
                            ('\\' :: 'u' :: hex4 (0xDC00 + (c.toNat - 0x10000) % 0x400)) := by
                        simp [escapeChar, h1, h2, h3, h4, h5, h6, h7, h8, h9]
                      have hup : c.toNat < 0x110000 := by
                        rcases char_valid_toNat c with h | h
                        · omega
                        · exact h.2
                      rw [he] at hf ⊢
                      simp only [List.length_cons, List.length_append, List.length_nil,
                        hex4] at hf
                      obtain ⟨g, rfl⟩ : ∃ g, f = g + 1 := ⟨f - 1, by omega⟩
                      have hih := ih g (by omega) rest
                      simp only [List.cons_append, List.append_assoc]
                      rw [parseStringBodyAux_backslash g _ _ _
                        (parseEscape_surrogate
                          (show c.toNat - 0x10000 < 0x100000 by omega)
                          (escapeStr cs ++ '"' :: rest)), hih,
                        show 0x10000 + (c.toNat - 0x10000) = c.toNat by omega,
                        Char.ofNat_toNat]
                      rfl

theorem parseStringBody_escape (s : List Char) (rest : List Char) :
    parseStringBody (escapeStr s ++ '"' :: rest) = some (s, rest) := by
  unfold parseStringBody
  apply parseStringBodyAux_escape
  simp [List.length_append]
  omega

theorem natDigitsAux_congr : ∀ (f g n : Nat), n < f → n < g →
    natDigitsAux f n = natDigitsAux g n := by
  intro f
  induction f with
  | zero => intro g n h; omega
  | succ f ih =>
    intro g n hf hg
    cases g with
    | zero => omega
    | succ g =>
      simp only [natDigitsAux]
      split
      · rfl
      · rename_i h10
        have hd : n / 10 < n := Nat.div_lt_self (by omega) (by omega)
        rw [ih g (n / 10) (by omega) (by omega)]

theorem natDigits_step (n : Nat) :
    natDigits n =
      if n < 10 then [digitChar10 n]
      else natDigits (n / 10) ++ [digitChar10 (n % 10)] := by
  by_cases h : n < 10
  · rw [if_pos h]
    show natDigitsAux (n + 1) n = _
    simp only [natDigitsAux]
    rw [if_pos h]
  · rw [if_neg h]
    show natDigitsAux (n + 1) n = _
    simp only [natDigitsAux]
    rw [if_neg h]
    have hd : n / 10 < n := Nat.div_lt_self (by omega) (by omega)
    rw [natDigitsAux_congr n (n / 10 + 1) (n / 10) (by omega) (by omega)]
    rfl

theorem natDigits_all_digits (n : Nat) : ∀ c ∈ natDigits n, isDigitChar c = true := by
  induction n using Nat.strong_induction_on with
  | _ n ih =>
    rw [natDigits_step]
    split
    · rename_i h10
      intro c hc
      simp only [List.mem_singleton] at hc
      subst hc
      exact isDigitChar_digitChar10 (by omega)
    · rename_i h10
      intro c hc
      rcases List.mem_append.1 hc with hc | hc
      · exact ih (n / 10) (Nat.div_lt_self (by omega) (by omega)) c hc
      · simp only [List.mem_singleton] at hc
        subst hc
        exact isDigitChar_digitChar10 (by omega)

theorem natDigits_head (n : Nat) :
    ∃ d ds, natDigits n = d :: ds ∧ isDigitChar d = true ∧ (0 < n → d ≠ '0') := by
  induction n using Nat.strong_induction_on with
  | _ n ih =>
    rw [natDigits_step]
    split
    · rename_i h10
      refine ⟨digitChar10 n, [], rfl, isDigitChar_digitChar10 (by omega), ?_⟩
      intro hn h0
      have ht := digitChar10_toNat (show n < 10 by omega)
      rw [h0] at ht
      have h48 : ('0' : Char).toNat = 48 := rfl
      omega
    · rename_i h10
      obtain ⟨d, ds, hd, hdig, hne⟩ := ih (n / 10) (Nat.div_lt_self (by omega) (by omega))
      refine ⟨d, ds ++ [digitChar10 (n % 10)], by rw [hd]; rfl, hdig, ?_⟩
      intro _
      exact hne (Nat.div_pos (by omega) (by omega))

theorem natOfDigits_natDigits (n : Nat) : natOfDigits (natDigits n) = n := by
  induction n using Nat.strong_induction_on with
  | _ n ih =>
    rw [natDigits_step]
    split
    · rename_i h10
      simp [natOfDigits, digitChar10_toNat (show n < 10 by omega)]
    · rename_i h10
      have hrec := ih (n / 10) (Nat.div_lt_self (by omega) (by omega))
      unfold natOfDigits at hrec ⊢
      rw [List.foldl_append]
      rw [hrec]
      simp [digitChar10_toNat (show n % 10 < 10 by omega)]
      omega

theorem takeWhile_append_all {α : Type} (p : α → Bool) (xs ys : List α)
    (h : ∀ c ∈ xs, p c = true) : (xs ++ ys).takeWhile p = xs ++ ys.takeWhile p := by
  induction xs with
  | nil => simp
  | cons x xs ih =>
    have hx := h x (by simp)
    simp only [List.cons_append, List.takeWhile_cons, hx, if_true]
    rw [ih (fun c hc => h c (by simp [hc]))]

theorem dropWhile_append_all {α : Type} (p : α → Bool) (xs ys : List α)
    (h : ∀ c ∈ xs, p c = true) : (xs ++ ys).dropWhile p = ys.dropWhile p := by
  induction xs with
  | nil => simp
  | cons x xs ih =>
    have hx := h x (by simp)
    simp only [List.cons_append, List.dropWhile_cons, hx, if_true]
    exact ih (fun c hc => h c (by simp [hc]))

theorem parseIntPart_cons (c : Char) (rest : List Char) :
    parseIntPart (c :: rest) =
      if c = '0' then some (['0'], rest)
      else if isDigitChar c then
        some (c :: rest.takeWhile (fun x => isDigitChar x),
          rest.dropWhile (fun x => isDigitChar x))
      else none := rfl

theorem parseFracPart_brace (rest : List Char) :
    parseFracPart ('}' :: rest) = ([], '}' :: rest) := rfl

theorem parseExpPart_brace (rest : List Char) :
    parseExpPart ('}' :: rest) = ([], '}' :: rest) := rfl

theorem parseNum_cons (c : Char) (rest : List Char) :
    parseNum (c :: rest) =
      if c = '-' then parseNumCore true rest else parseNumCore false (c :: rest) := rfl

theorem parseIntPart_natDigits (n : Nat) (c0 : Char) (rest : List Char)
    (hc0 : isDigitChar c0 = false) :
    parseIntPart (natDigits n ++ c0 :: rest) = some (natDigits n, c0 :: rest) := by
  obtain ⟨d, ds, hd, hdig, hne⟩ := natDigits_head n
  by_cases hn : n = 0
  · subst hn
    rw [show natDigits 0 = ['0'] from rfl]
    simp [parseIntPart]
  · have hds : ∀ c ∈ ds, isDigitChar c = true := by
      intro c hc
      exact natDigits_all_digits n c (by rw [hd]; exact List.mem_cons_of_mem d hc)
    rw [hd]
    simp only [List.cons_append]
    rw [parseIntPart_cons, if_neg (hne (by omega)), if_pos hdig]
    rw [takeWhile_append_all _ ds (c0 :: rest) hds, dropWhile_append_all _ ds (c0 :: rest) hds]
    simp [List.takeWhile_cons, List.dropWhile_cons, hc0]

theorem parseNumCore_natDigits (neg : Bool) (n : Nat) (rest : List Char) :
    parseNumCore neg (natDigits n ++ '}' :: rest) =
      some (JsonValue.int (if neg then -(n : Int) else (n : Int)), '}' :: rest) := by
  unfold parseNumCore
  rw [parseIntPart_natDigits n '}' rest (by decide)]
  simp only [parseFracPart_brace, parseExpPart_brace]
  rw [if_pos (⟨trivial, trivial⟩ : True ∧ True)]
  rw [natOfDigits_natDigits]

theorem parseNum_intRepr (a : Int) (rest : List Char) :
    parseNum (intRepr a ++ '}' :: rest) = some (JsonValue.int a, '}' :: rest) := by
  unfold intRepr
  split
  · rename_i hneg
    simp only [List.cons_append]
    rw [parseNum_cons, if_pos rfl, parseNumCore_natDigits]
    rw [if_pos (rfl : (true : Bool) = true)]
    rw [show -(((a.natAbs : Nat) : Int)) = a by omega]
  · rename_i hneg
    obtain ⟨d, ds, hd, hdig, hne⟩ := natDigits_head a.natAbs
    have hb := isDigitChar_bounds hdig
    rw [hd]
    simp only [List.cons_append]
    rw [parseNum_cons, if_neg (show ¬(d = '-') by
      intro he; rw [he] at hb; revert hb; decide)]
    rw [← List.cons_append, ← hd, parseNumCore_natDigits]
    simp only [Bool.false_eq_true, if_false]
    rw [show ((a.natAbs : Nat) : Int) = a by omega]

theorem digit_ne {d : Char} (h : isDigitChar d = true) (k : Char)
    (hk : ¬(48 ≤ k.toNat ∧ k.toNat ≤ 57)) : d ≠ k := by
  have hb := isDigitChar_bounds h
  intro he
  rw [he] at hb
  exact hk hb

theorem not_isWsChar_of_digit {d : Char} (h : isDigitChar d = true) : isWsChar d = false := by
  have h1 := digit_ne h ' ' (by decide)
  have h2 := digit_ne h '\t' (by decide)
  have h3 := digit_ne h '\n' (by decide)
  have h4 := digit_ne h '\r' (by decide)
  simp [isWsChar, h1, h2, h3, h4]

theorem skipWs_not {c : Char} (cs : List Char) (h : isWsChar c = false) :
    skipWs (c :: cs) = c :: cs := by
  simp [skipWs, h]

theorem toList_mk (l : List Char) : (String.mk l).toList = l := rfl

theorem parseValue_string (f : Nat) (cs rest : List Char) (hsk : skipWs cs = '"' :: rest) :
    parseValue (f + 1) cs =
      (parseStringBody rest).map (fun p => (JsonValue.str (String.mk p.1), p.2)) := by
  simp only [parseValue, hsk]
  rw [if_pos trivial]

theorem parseValue_obj (f : Nat) (cs rest : List Char) (hsk : skipWs cs = '{' :: rest)
    (c2 : Char) (rest2 : List Char) (hsk2 : skipWs rest = c2 :: rest2) (hne : ¬(c2 = '}')) :
    parseValue (f + 1) cs =
      (parseMembers f (c2 :: rest2)).map (fun p => (JsonValue.obj p.1, p.2)) := by
  simp only [parseValue, hsk, hsk2]
  rw [if_neg (by decide), if_pos trivial, if_neg hne]

theorem parseValue_neg_num (f : Nat) (cs : List Char) (d : Char) (rest2 : List Char)
    (hsk : skipWs cs = '-' :: d :: rest2) (hd : isDigitChar d = true) :
    parseValue (f + 1) cs = parseNum ('-' :: d :: rest2) := by
  simp only [parseValue, hsk]
  rw [if_neg (by decide), if_neg (by decide), if_neg (by decide), if_neg (by decide),
    if_neg (by decide), if_neg (by decide), if_neg (by decide), if_neg (by decide),
    if_pos trivial]
  have hexp : expectChars ['I', 'n', 'f', 'i', 'n', 'i', 't', 'y'] (d :: rest2) = none := by
    simp only [expectChars]
    rw [if_neg (digit_ne hd 'I' (by decide))]
  rw [hexp]

theorem parseValue_pos_num (f : Nat) (cs : List Char) (d : Char) (rest2 : List Char)
    (hsk : skipWs cs = d :: rest2) (hd : isDigitChar d = true) :
    parseValue (f + 1) cs = parseNum (d :: rest2) := by
  simp only [parseValue, hsk]
  rw [if_neg (digit_ne hd '"' (by decide)), if_neg (digit_ne hd '{' (by decide)),
    if_neg (digit_ne hd '[' (by decide)), if_neg (digit_ne hd 't' (by decide)),
    if_neg (digit_ne hd 'f' (by decide)), if_neg (digit_ne hd 'n' (by decide)),
    if_neg (digit_ne hd 'N' (by decide)), if_neg (digit_ne hd 'I' (by decide)),
    if_neg (digit_ne hd '-' (by decide))]

theorem parseValue_int_spaced (f : Nat) (a : Int) (rest : List Char) :
    parseValue (f + 1) (' ' :: (intRepr a ++ '}' :: rest)) =
      some (JsonValue.int a, '}' :: rest) := by
  obtain ⟨d, ds, hd, hdig, hne⟩ := natDigits_head a.natAbs
  by_cases ha : a < 0
  · have hskip : skipWs (' ' :: (intRepr a ++ '}' :: rest)) =
        '-' :: d :: (ds ++ '}' :: rest) := by
      show skipWs (intRepr a ++ '}' :: rest) = _
      rw [intRepr, if_pos ha, hd]
      simp only [List.cons_append]
      rw [skipWs_not _ (by decide)]
    rw [parseValue_neg_num f _ d (ds ++ '}' :: rest) hskip hdig]
    rw [show ('-' :: d :: (ds ++ '}' :: rest)) = intRepr a ++ '}' :: rest by
      rw [intRepr, if_pos ha, hd]; simp]
    rw [parseNum_intRepr]
  · have hskip : skipWs (' ' :: (intRepr a ++ '}' :: rest)) = d :: (ds ++ '}' :: rest) := by
      show skipWs (intRepr a ++ '}' :: rest) = _
      rw [intRepr, if_neg ha, hd]
      simp only [List.cons_append]
      rw [skipWs_not _ (not_isWsChar_of_digit hdig)]
    rw [parseValue_pos_num f _ d (ds ++ '}' :: rest) hskip hdig]
    rw [show (d :: (ds ++ '}' :: rest)) = intRepr a ++ '}' :: rest by
      rw [intRepr, if_neg ha, hd]; simp]
    rw [parseNum_intRepr]

theorem parseMembers_comma (f : Nat) (cs rest : List Char) (hsk : skipWs cs = '"' :: rest)
    (key : List Char) (rest2 : List Char) (hkey : parseStringBody rest = some (key, rest2))
    (rest3 : List Char) (hsk2 : skipWs rest2 = ':' :: rest3)
    (v : JsonValue) (rest4 : List Char) (hv : parseValue f rest3 = some (v, rest4))
    (rest5 : List Char) (hc : skipWs rest4 = ',' :: rest5) :
    parseMembers (f + 1) cs =
      (parseMembers f rest5).map (fun p => ((String.mk key, v) :: p.1, p.2)) := by
  simp only [parseMembers, hsk, hkey, hsk2, hv, hc]

theorem parseMembers_brace (f : Nat) (cs rest : List Char) (hsk : skipWs cs = '"' :: rest)
    (key : List Char) (rest2 : List Char) (hkey : parseStringBody rest = some (key, rest2))
    (rest3 : List Char) (hsk2 : skipWs rest2 = ':' :: rest3)
    (v : JsonValue) (rest4 : List Char) (hv : parseValue f rest3 = some (v, rest4))
    (rest5 : List Char) (hc : skipWs rest4 = '}' :: rest5) :
    parseMembers (f + 1) cs = some ([(String.mk key, v)], rest5) := by
  simp only [parseMembers, hsk, hkey, hsk2, hv, hc]

/-- C8: the callback-token codec round-trips exactly: decoding an encoded
`(product_id, amount)` pair recovers the pair (`serialize_product_id_and_amount`
/ `deserialize_product_id_and_amount`, telegram_bot.py:317-329, for every
product id string and every integer amount). -/
theorem c8_callback_token_roundtrip (p : String) (a : Int) :
    deserialize_product_id_and_amount (serialize_product_id_and_amount p a) =
      .ok (JsonValue.str p, JsonValue.int a) := by
  have hvid : ∀ f : Nat,
      parseValue (f + 1)
        (' ' :: '"' :: (escapeStr p.toList ++
          ('"' :: ',' :: ' ' :: '"' :: 'a' :: 'm' :: 'o' :: 'u' :: 'n' :: 't' :: '"' :: ':' ::
            ' ' :: (intRepr a ++ ['}'])))) =
        some (JsonValue.str (String.mk p.toList),
          ',' :: ' ' :: '"' :: 'a' :: 'm' :: 'o' :: 'u' :: 'n' :: 't' :: '"' :: ':' :: ' ' ::
            (intRepr a ++ ['}'])) := by
    intro f
    rw [parseValue_string f
      (' ' :: '"' :: (escapeStr p.toList ++
        ('"' :: ',' :: ' ' :: '"' :: 'a' :: 'm' :: 'o' :: 'u' :: 'n' :: 't' :: '"' :: ':' ::
          ' ' :: (intRepr a ++ ['}']))))
      (escapeStr p.toList ++
        ('"' :: ',' :: ' ' :: '"' :: 'a' :: 'm' :: 'o' :: 'u' :: 'n' :: 't' :: '"' :: ':' ::
          ' ' :: (intRepr a ++ ['}'])))
      (show skipWs (' ' :: '"' :: (escapeStr p.toList ++
        ('"' :: ',' :: ' ' :: '"' :: 'a' :: 'm' :: 'o' :: 'u' :: 'n' :: 't' :: '"' :: ':' ::
          ' ' :: (intRepr a ++ ['}'])))) =
        '"' :: (escapeStr p.toList ++
          ('"' :: ',' :: ' ' :: '"' :: 'a' :: 'm' :: 'o' :: 'u' :: 'n' :: 't' :: '"' :: ':' ::
            ' ' :: (intRepr a ++ ['}'])))
        from @skipWs_not '"' (escapeStr p.toList ++
          ('"' :: ',' :: ' ' :: '"' :: 'a' :: 'm' :: 'o' :: 'u' :: 'n' :: 't' :: '"' :: ':' ::
            ' ' :: (intRepr a ++ ['}']))) (by decide))]
    rw [parseStringBody_escape p.toList]
    rfl
  have hm : ∀ f : Nat,
      parseMembers (f + 3)
        ('"' :: 'i' :: 'd' :: '"' :: ':' :: ' ' :: '"' :: (escapeStr p.toList ++
          ('"' :: ',' :: ' ' :: '"' :: 'a' :: 'm' :: 'o' :: 'u' :: 'n' :: 't' :: '"' :: ':' ::
            ' ' :: (intRepr a ++ ['}'])))) =
        some ([(String.mk ['i', 'd'], JsonValue.str (String.mk p.toList)),
          (String.mk ['a', 'm', 'o', 'u', 'n', 't'], JsonValue.int a)], []) := by
    intro f
    rw [parseMembers_comma (f + 2) _
      ('i' :: 'd' :: '"' :: ':' :: ' ' :: '"' :: (escapeStr p.toList ++
        ('"' :: ',' :: ' ' :: '"' :: 'a' :: 'm' :: 'o' :: 'u' :: 'n' :: 't' :: '"' :: ':' ::
          ' ' :: (intRepr a ++ ['}']))))
      (skipWs_not _ (by decide))
      ['i', 'd']
      (':' :: ' ' :: '"' :: (escapeStr p.toList ++
        ('"' :: ',' :: ' ' :: '"' :: 'a' :: 'm' :: 'o' :: 'u' :: 'n' :: 't' :: '"' :: ':' ::
          ' ' :: (intRepr a ++ ['}']))))
      (parseStringBody_escape ['i', 'd'] _)
      (' ' :: '"' :: (escapeStr p.toList ++
        ('"' :: ',' :: ' ' :: '"' :: 'a' :: 'm' :: 'o' :: 'u' :: 'n' :: 't' :: '"' :: ':' ::
          ' ' :: (intRepr a ++ ['}']))))
      (skipWs_not _ (by decide))
      (JsonValue.str (String.mk p.toList))
      (',' :: ' ' :: '"' :: 'a' :: 'm' :: 'o' :: 'u' :: 'n' :: 't' :: '"' :: ':' :: ' ' ::
        (intRepr a ++ ['}']))
      (hvid (f + 1))
      (' ' :: '"' :: 'a' :: 'm' :: 'o' :: 'u' :: 'n' :: 't' :: '"' :: ':' :: ' ' ::
        (intRepr a ++ ['}']))
      (skipWs_not _ (by decide))]
    rw [parseMembers_brace (f + 1)
      (' ' :: '"' :: 'a' :: 'm' :: 'o' :: 'u' :: 'n' :: 't' :: '"' :: ':' :: ' ' ::
        (intRepr a ++ ['}']))
      ('a' :: 'm' :: 'o' :: 'u' :: 'n' :: 't' :: '"' :: ':' :: ' ' :: (intRepr a ++ ['}']))
      (show skipWs (' ' :: '"' :: 'a' :: 'm' :: 'o' :: 'u' :: 'n' :: 't' :: '"' :: ':' :: ' ' ::
        (intRepr a ++ ['}'])) =
        '"' :: ('a' :: 'm' :: 'o' :: 'u' :: 'n' :: 't' :: '"' :: ':' :: ' ' ::
          (intRepr a ++ ['}']))
        from @skipWs_not '"' ('a' :: 'm' :: 'o' :: 'u' :: 'n' :: 't' :: '"' :: ':' :: ' ' ::
          (intRepr a ++ ['}'])) (by decide))
      ['a', 'm', 'o', 'u', 'n', 't']
      (':' :: ' ' :: (intRepr a ++ ['}']))
      (parseStringBody_escape ['a', 'm', 'o', 'u', 'n', 't'] _)
      (' ' :: (intRepr a ++ ['}']))
      (skipWs_not _ (by decide))
      (JsonValue.int a)
      ['}']
      (parseValue_int_spaced f a [])
      []
      (skipWs_not [] (by decide))]
    rfl
  have hpv :
      parseValue
        (('{' :: '"' :: 'i' :: 'd' :: '"' :: ':' :: ' ' :: '"' :: (escapeStr p.toList ++
          ('"' :: ',' :: ' ' :: '"' :: 'a' :: 'm' :: 'o' :: 'u' :: 'n' :: 't' :: '"' :: ':' ::
            ' ' :: (intRepr a ++ ['}'])))).length + 1)
        ('{' :: '"' :: 'i' :: 'd' :: '"' :: ':' :: ' ' :: '"' :: (escapeStr p.toList ++
          ('"' :: ',' :: ' ' :: '"' :: 'a' :: 'm' :: 'o' :: 'u' :: 'n' :: 't' :: '"' :: ':' ::
            ' ' :: (intRepr a ++ ['}'])))) =
        some (JsonValue.obj [(String.mk ['i', 'd'], JsonValue.str (String.mk p.toList)),
          (String.mk ['a', 'm', 'o', 'u', 'n', 't'], JsonValue.int a)], []) := by
    rw [parseValue_obj _ _
      ('"' :: 'i' :: 'd' :: '"' :: ':' :: ' ' :: '"' :: (escapeStr p.toList ++
        ('"' :: ',' :: ' ' :: '"' :: 'a' :: 'm' :: 'o' :: 'u' :: 'n' :: 't' :: '"' :: ':' ::
          ' ' :: (intRepr a ++ ['}']))))
      (skipWs_not _ (by decide)) '"'
      ('i' :: 'd' :: '"' :: ':' :: ' ' :: '"' :: (escapeStr p.toList ++
        ('"' :: ',' :: ' ' :: '"' :: 'a' :: 'm' :: 'o' :: 'u' :: 'n' :: 't' :: '"' :: ':' ::
          ' ' :: (intRepr a ++ ['}']))))
      (skipWs_not _ (by decide)) (by decide)]
    have hlen : ('{' :: '"' :: 'i' :: 'd' :: '"' :: ':' :: ' ' :: '"' :: (escapeStr p.toList ++
        ('"' :: ',' :: ' ' :: '"' :: 'a' :: 'm' :: 'o' :: 'u' :: 'n' :: 't' :: '"' :: ':' ::
          ' ' :: (intRepr a ++ ['}'])))).length =
        (('{' :: '"' :: 'i' :: 'd' :: '"' :: ':' :: ' ' :: '"' :: (escapeStr p.toList ++
          ('"' :: ',' :: ' ' :: '"' :: 'a' :: 'm' :: 'o' :: 'u' :: 'n' :: 't' :: '"' :: ':' ::
            ' ' :: (intRepr a ++ ['}'])))).length - 3) + 3 := by
      simp [List.length_cons]
    rw [hlen, hm]
    rfl
  have hloads : loads (serialize_product_id_and_amount p a) =
      some (JsonValue.obj [(String.mk ['i', 'd'], JsonValue.str (String.mk p.toList)),
        (String.mk ['a', 'm', 'o', 'u', 'n', 't'], JsonValue.int a)]) := by
    unfold loads serialize_product_id_and_amount
    rw [toList_mk, hpv]
    rfl
  unfold deserialize_product_id_and_amount
  rw [hloads]
  rfl

/-! ## Engine helper lemmas: how each handler moves the page cursor -/

/-- When dispatch finds a handler, the cursor after `handle_users_reply` is the
cursor the handler returned, whether or not the handler raised. -/
theorem handle_users_reply_page_eq (env : Env) (chat_id : Int) (ev : Event)
    (db : Option String) (page : Option Int)
    (f : Env → Int → Event → Option Int →
      Option Int × Except BotError (String × List Render))
    (hf : state_functions (resolved_state (event_reply ev) db) = some f) :
    (handle_users_reply env chat_id ev db page).1.2 = (f env chat_id ev page).1 := by
  simp only [handle_users_reply]
  rw [hf]
  simp only []
  rcases f env chat_id ev page with ⟨page2, e | ⟨ns, r⟩⟩
  · rfl
  · rfl

/-- When dispatch finds no handler, the cursor is unchanged. -/
theorem handle_users_reply_page_none (env : Env) (chat_id : Int) (ev : Event)
    (db : Option String) (page : Option Int)
    (hf : state_functions (resolved_state (event_reply ev) db) = none) :
    (handle_users_reply env chat_id ev db page).1.2 = page := by
  simp only [handle_users_reply]
  rw [hf]

/-- The start handler always resets the cursor to 0. -/
theorem handle_start_state_page (env : Env) (chat_id : Int) (ev : Event) (page : Option Int) :
    (handle_start_state env chat_id ev page).1 = some 0 := rfl

/-- A message in the product list state leaves the cursor unchanged. -/
theorem handle_product_list_state_page_message (env : Env) (chat_id : Int) (text : String)
    (loc : Option (String × String)) (page : Option Int) :
    (handle_product_list_state env chat_id (Event.message text loc) page).1 = page := rfl

/-- A callback in the product list state with no stored cursor leaves it unset. -/
theorem handle_product_list_state_page_none (env : Env) (chat_id : Int) (d : String) :
    (handle_product_list_state env chat_id (Event.callback d) none).1 = none := by
  simp only [handle_product_list_state]
  split_ifs <;> rfl

/-- How a callback in the product list state moves a stored cursor: +1 for the
next-page token, −1 for the previous-page token (no floor), else unchanged. -/
theorem handle_product_list_state_page_some (env : Env) (chat_id : Int) (d : String) (p : Int) :
    (handle_product_list_state env chat_id (Event.callback d) (some p)).1 =
      if d = NEXT_PAGE_CALLBACK_DATA then some (p + 1)
      else if d = PREVIOUS_PAGE_CALLBACK_DATA then some (p - 1)
      else some p := by
  simp only [handle_product_list_state]
  split_ifs <;> rfl

/-- The product description handler never moves the cursor. -/
theorem handle_product_description_state_page (env : Env) (chat_id : Int) (ev : Event)
    (page : Option Int) :
    (handle_product_description_state env chat_id ev page).1 = page := by
  cases ev with
  | message t loc => rfl
  | callback d =>
    simp only [handle_product_description_state]
    split_ifs <;> rfl

/-- The cart handler never moves the cursor. -/
theorem handle_cart_state_page (env : Env) (chat_id : Int) (ev : Event) (page : Option Int) :
    (handle_cart_state env chat_id ev page).1 = page := by
  cases ev with
  | message t loc => rfl
  | callback d =>
    simp only [handle_cart_state]
    split_ifs <;> rfl

/-- The location handler never moves the cursor. -/
theorem handle_location_state_page (env : Env) (chat_id : Int) (ev : Event) (page : Option Int) :
    (handle_location_state env chat_id ev page).1 = page := by
  cases ev with
  | message t loc => rfl
  | callback d => rfl

/-- A state token equal to none of the five table keys has no handler. -/
theorem state_functions_eq_none (s : String)
    (h1 : ¬ s = START_STATE) (h2 : ¬ s = PRODUCT_LIST_STATE)
    (h3 : ¬ s = PRODUCT_DESCRIPTION_STATE) (h4 : ¬ s = CART_STATE)
    (h5 : ¬ s = WAIT_LOCATION_STATE) : state_functions s = none := by
  unfold state_functions
  rw [if_neg h1, if_neg h2, if_neg h3, if_neg h4, if_neg h5]

/-- One step of the cursor invariant: if the previous-page token only arrives
while the cursor is positive, a nonnegative cursor stays nonnegative. -/
theorem handle_users_reply_page_step (env : Env) (chat_id : Int) (ev : Event)
    (db : Option String) (page : Option Int)
    (hguard : (ev = Event.callback PREVIOUS_PAGE_CALLBACK_DATA ∧
        db = some PRODUCT_LIST_STATE) → page_positive page)
    (h0 : page_nonneg page) :
    page_nonneg (handle_users_reply env chat_id ev db page).1.2 := by
  by_cases hstart : event_reply ev = "/start"
  · have hf : state_functions (resolved_state (event_reply ev) db) =
        some handle_start_state := by
      unfold resolved_state
      rw [if_pos hstart]
      unfold state_functions
      rw [if_pos rfl]
    rw [handle_users_reply_page_eq env chat_id ev db page handle_start_state hf,
      handle_start_state_page]
    show (0 : Int) ≤ 0
    omega
  · cases db with
    | none =>
      have hf : state_functions (resolved_state (event_reply ev) none) =
          some handle_start_state := by
        unfold resolved_state
        rw [if_neg hstart]
        unfold state_functions
        rw [if_pos rfl]
      rw [handle_users_reply_page_eq env chat_id ev none page handle_start_state hf,
        handle_start_state_page]
      show (0 : Int) ≤ 0
      omega
    | some s =>
      have hres : resolved_state (event_reply ev) (some s) = s := by
        unfold resolved_state
        rw [if_neg hstart]
      by_cases h1 : s = START_STATE
      · have hf : state_functions (resolved_state (event_reply ev) (some s)) =
            some handle_start_state := by
          rw [hres, h1]
          unfold state_functions
          rw [if_pos rfl]
        rw [handle_users_reply_page_eq env chat_id ev (some s) page handle_start_state hf,
          handle_start_state_page]
        show (0 : Int) ≤ 0
        omega
      · by_cases h2 : s = PRODUCT_LIST_STATE
        · have hf : state_functions (resolved_state (event_reply ev) (some s)) =
              some handle_product_list_state := by
            rw [hres, h2]
            unfold state_functions
            rw [if_neg (by decide), if_pos rfl]
          rw [handle_users_reply_page_eq env chat_id ev (some s) page
            handle_product_list_state hf]
          cases ev with
          | message t loc =>
            rw [handle_product_list_state_page_message]
            exact h0
          | callback d =>
            cases page with
            | none =>
              rw [handle_product_list_state_page_none]
              trivial
            | some p =>
              rw [handle_product_list_state_page_some]
              by_cases hn : d = NEXT_PAGE_CALLBACK_DATA
              · rw [if_pos hn]
                have hp0 : (0 : Int) ≤ p := h0
                show (0 : Int) ≤ p + 1
                omega
              · rw [if_neg hn]
                by_cases hp : d = PREVIOUS_PAGE_CALLBACK_DATA
                · rw [if_pos hp]
                  have hpos : (0 : Int) < p := hguard ⟨by rw [hp], by rw [h2]⟩
                  show (0 : Int) ≤ p - 1
                  omega
                · rw [if_neg hp]
                  exact h0
        · by_cases h3 : s = PRODUCT_DESCRIPTION_STATE
          · have hf : state_functions (resolved_state (event_reply ev) (some s)) =
                some handle_product_description_state := by
              rw [hres, h3]
              unfold state_functions
              rw [if_neg (by decide), if_neg (by decide), if_pos rfl]
            rw [handle_users_reply_page_eq env chat_id ev (some s) page
              handle_product_description_state hf, handle_product_description_state_page]
            exact h0
          · by_cases h4 : s = CART_STATE
            · have hf : state_functions (resolved_state (event_reply ev) (some s)) =
                  some handle_cart_state := by
                rw [hres, h4]
                unfold state_functions
                rw [if_neg (by decide), if_neg (by decide), if_neg (by decide), if_pos rfl]
              rw [handle_users_reply_page_eq env chat_id ev (some s) page
                handle_cart_state hf, handle_cart_state_page]
              exact h0
            · by_cases h5 : s = WAIT_LOCATION_STATE
              · have hf : state_functions (resolved_state (event_reply ev) (some s)) =
                    some handle_location_state := by
                  rw [hres, h5]
                  unfold state_functions
                  rw [if_neg (by decide), if_neg (by decide), if_neg (by decide),
                    if_neg (by decide), if_pos rfl]
                rw [handle_users_reply_page_eq env chat_id ev (some s) page
                  handle_location_state hf, handle_location_state_page]
                exact h0
              · have hf : state_functions (resolved_state (event_reply ev) (some s)) =
                    none := by
                  rw [hres]
                  exact state_functions_eq_none s h1 h2 h3 h4 h5
                rw [handle_users_reply_page_none env chat_id ev (some s) page hf]
                exact h0

/-- Python `min(key=...)` selects the first element attaining the least key:
the running best of the fold splits the input so that every element before it
has a strictly larger key and no element at all has a smaller one. -/
theorem pyFold_first_argmin {α : Type} (key : α → Int) (xs : List α) :
    ∀ b : α, ∃ pre post,
      b :: xs = pre ++ pyFold key b xs :: post ∧
      (∀ y ∈ pre, key (pyFold key b xs) < key y) ∧
      (∀ y ∈ b :: xs, key (pyFold key b xs) ≤ key y) := by
  induction xs with
  | nil =>
    intro b
    refine ⟨[], [], rfl, ?_, ?_⟩
    · intro y hy
      exact absurd hy (List.not_mem_nil y)
    · intro y hy
      rw [List.mem_singleton] at hy
      rw [hy]
      exact le_refl (key b)
  | cons x xs ih =>
    intro b
    by_cases hx : key x < key b
    · have hr : pyFold key b (x :: xs) = pyFold key x xs := by
        unfold pyFold
        rw [List.foldl_cons, if_pos hx]
      obtain ⟨pre, post, hdecomp, hpre, hle⟩ := ih x
      refine ⟨b :: pre, post, ?_, ?_, ?_⟩
      · rw [hr, List.cons_append]
        exact congrArg (List.cons b) hdecomp
      · intro y hy
        rw [hr]
        rcases List.mem_cons.mp hy with hyb | hyp
        · rw [hyb]
          exact lt_of_le_of_lt (hle x (List.mem_cons_self x xs)) hx
        · exact hpre y hyp
      · intro y hy
        rw [hr]
        rcases List.mem_cons.mp hy with hyb | hyt
        · rw [hyb]
          exact le_of_lt (lt_of_le_of_lt (hle x (List.mem_cons_self x xs)) hx)
        · exact hle y hyt
    · have hr : pyFold key b (x :: xs) = pyFold key b xs := by
        unfold pyFold
        rw [List.foldl_cons, if_neg hx]
      have hbx : key b ≤ key x := le_of_not_lt hx
      obtain ⟨pre, post, hdecomp, hpre, hle⟩ := ih b
      cases pre with
      | nil =>
        have h' : b :: xs = pyFold key b xs :: post := by
          rw [List.nil_append] at hdecomp
          exact hdecomp
        injection h' with hb hpost
        refine ⟨[], x :: xs, ?_, ?_, ?_⟩
        · rw [List.nil_append, hr, ← hb]
        · intro y hy
          exact absurd hy (List.not_mem_nil y)
        · intro y hy
          rw [hr, ← hb]
          rcases List.mem_cons.mp hy with h1 | h2
          · rw [h1]
          · rcases List.mem_cons.mp h2 with h3 | h4
            · rw [h3]
              exact hbx
            · have hy' := hle y (List.mem_cons_of_mem b h4)
              rw [← hb] at hy'
              exact hy'
      | cons p0 pre' =>
        rw [List.cons_append] at hdecomp
        injection hdecomp with hb0 hxs
        have hrb : key (pyFold key b xs) < key b := by
          have hp0 := hpre p0 (List.mem_cons_self p0 pre')
          rw [← hb0] at hp0
          exact hp0
        refine ⟨b :: x :: pre', post, ?_, ?_, ?_⟩
        · rw [hr, List.cons_append, List.cons_append]
          exact congrArg (List.cons b) (congrArg (List.cons x) hxs)
        · intro y hy
          rw [hr]
          rcases List.mem_cons.mp hy with h1 | h2
          · rw [h1]
            exact hrb
          · rcases List.mem_cons.mp h2 with h3 | h4
            · rw [h3]
              exact lt_of_lt_of_le hrb hbx
            · exact hpre y (List.mem_cons_of_mem p0 h4)
        · intro y hy
          rw [hr]
          rcases List.mem_cons.mp hy with h1 | h2
          · rw [h1]
            exact le_of_lt hrb
          · rcases List.mem_cons.mp h2 with h3 | h4
            · rw [h3]
              exact le_of_lt (lt_of_lt_of_le hrb hbx)
            · exact hle y (List.mem_cons_of_mem b h4)

/-! ## The claims -/

/-- Claim C1 (corrected): the next-page token in the product list state always
advances the cursor from p to p+1 and renders the following page, whatever
that page contains — the source has no empty-page revert; the state stays the
product list state. -/
theorem c1_next_page_always_advances (env : Env) (chat_id : Int) (p : Int)
    (l1 l2 : List Product)
    (h1 : env.get_products PRODUCT_LIST_PAGE_SIZE (PRODUCT_LIST_PAGE_SIZE * (p + 1)) = .ok l1)
    (h2 : env.get_products PRODUCT_LIST_PAGE_SIZE (PRODUCT_LIST_PAGE_SIZE * (p + 1 + 1)) = .ok l2) :
    handle_users_reply env chat_id (Event.callback NEXT_PAGE_CALLBACK_DATA)
      (some PRODUCT_LIST_STATE) (some p) =
      ((some PRODUCT_LIST_STATE, some (p + 1)),
        .ok [Render.deleteMessage, Render.answerCallback none,
          Render.productList (PRODUCT_LIST_PAGE_SIZE * (p + 1)) l1
            ((if p + 1 > 0 then [PREVIOUS_PAGE_CALLBACK_DATA] else []) ++
              (if l2.length > 0 then [NEXT_PAGE_CALLBACK_DATA] else []))]) := by
  simp [handle_users_reply, resolved_state, event_reply, state_functions,
    handle_product_list_state, show_product_list, navigation_buttons,
    NEXT_PAGE_CALLBACK_DATA, PREVIOUS_PAGE_CALLBACK_DATA, PRODUCT_LIST_STATE, START_STATE,
    PRODUCT_DESCRIPTION_STATE, CART_STATE, WAIT_LOCATION_STATE, h1, h2]

/-- Claim C1 counterexample: over a catalog whose page 1 is empty, the
next-page token at cursor 0 still moves the cursor to 1 and renders the empty
page at offset 8 instead of re-rendering page 0. -/
theorem c1_counterexample_next_page_no_revert :
    handle_users_reply pagedEnv 7 (Event.callback NEXT_PAGE_CALLBACK_DATA)
        (some PRODUCT_LIST_STATE) (some 0) =
      ((some PRODUCT_LIST_STATE, some 1),
        .ok [Render.deleteMessage, Render.answerCallback none,
          Render.productList 8 [] [PREVIOUS_PAGE_CALLBACK_DATA]]) := by
  decide

/-- Claim C1 witness: the amended theorem evaluated over the concrete paged
catalog at cursor 0. -/
theorem c1_next_page_witness :
    pagedEnv.get_products PRODUCT_LIST_PAGE_SIZE (PRODUCT_LIST_PAGE_SIZE * (0 + 1)) =
      .ok ([] : List Product) ∧
    pagedEnv.get_products PRODUCT_LIST_PAGE_SIZE (PRODUCT_LIST_PAGE_SIZE * (0 + 1 + 1)) =
      .ok ([] : List Product) ∧
    handle_users_reply pagedEnv 7 (Event.callback NEXT_PAGE_CALLBACK_DATA)
        (some PRODUCT_LIST_STATE) (some 0) =
      ((some PRODUCT_LIST_STATE, some (0 + 1)),
        .ok [Render.deleteMessage, Render.answerCallback none,
          Render.productList (PRODUCT_LIST_PAGE_SIZE * (0 + 1)) []
            ((if (0 : Int) + 1 > 0 then [PREVIOUS_PAGE_CALLBACK_DATA] else []) ++
              (if ([] : List Product).length > 0 then [NEXT_PAGE_CALLBACK_DATA] else []))]) :=
  ⟨by decide, by decide,
    c1_next_page_always_advances pagedEnv 7 0 [] [] (by decide) (by decide)⟩

/-- Claim C2 (corrected): dispatch is total on exactly the five states of the
table — start, product list, product description, cart, wait-for-location —
but the wait-for-email state has no entry, so any event whose reply is not
"/start" from a user stored in that state raises a KeyError instead of
creating a customer and moving to the start state; no state write is
committed. -/
theorem c2_dispatch_partial_wait_email (env : Env) (chat_id : Int) (ev : Event)
    (page : Option Int) (h : ¬ event_reply ev = "/start") :
    (∀ s ∈ [START_STATE, PRODUCT_LIST_STATE, PRODUCT_DESCRIPTION_STATE, CART_STATE,
        WAIT_LOCATION_STATE], (state_functions s).isSome = true) ∧
    state_functions WAIT_EMAIL_STATE = none ∧
    handle_users_reply env chat_id ev (some WAIT_EMAIL_STATE) page =
      ((some WAIT_EMAIL_STATE, page), .error (BotError.keyError WAIT_EMAIL_STATE)) := by
  have hnone : state_functions WAIT_EMAIL_STATE = none :=
    state_functions_eq_none WAIT_EMAIL_STATE (by decide) (by decide) (by decide) (by decide)
      (by decide)
  refine ⟨?_, hnone, ?_⟩
  · intro s hs
    fin_cases hs <;> rfl
  · simp only [handle_users_reply]
    have hres : resolved_state (event_reply ev) (some WAIT_EMAIL_STATE) = WAIT_EMAIL_STATE := by
      unfold resolved_state
      rw [if_neg h]
    rw [hres, hnone]

/-- Claim C2 counterexample: a text message from a user stored in the
wait-for-email state raises a KeyError — the table has no entry for it. -/
theorem c2_counterexample_wait_email_key_error :
    handle_users_reply trivEnv 7 (Event.message "user@example.com" none)
        (some WAIT_EMAIL_STATE) (some 0) =
      ((some WAIT_EMAIL_STATE, some 0), .error (BotError.keyError WAIT_EMAIL_STATE)) := by
  decide

/-- Claim C2 witness: the amended theorem evaluated on a concrete email
message. -/
theorem c2_dispatch_witness :
    ¬ event_reply (Event.message "user@example.com" none) = "/start" ∧
    ((∀ s ∈ [START_STATE, PRODUCT_LIST_STATE, PRODUCT_DESCRIPTION_STATE, CART_STATE,
        WAIT_LOCATION_STATE], (state_functions s).isSome = true) ∧
      state_functions WAIT_EMAIL_STATE = none ∧
      handle_users_reply trivEnv 7 (Event.message "user@example.com" none)
          (some WAIT_EMAIL_STATE) (some 0) =
        ((some WAIT_EMAIL_STATE, some 0), .error (BotError.keyError WAIT_EMAIL_STATE))) :=
  ⟨by decide,
    c2_dispatch_partial_wait_email trivEnv 7 (Event.message "user@example.com" none)
      (some 0) (by decide)⟩

/-- Claim C3 (corrected): a callback token in the product description state
that is no sentinel and fails to decode is not a silent no-op — the
`json.JSONDecodeError` escapes the handler as a crash; only the persisted
state survives unchanged because the Redis write is skipped. -/
theorem c3_malformed_token_raises (env : Env) (chat_id : Int) (data : String)
    (page : Option Int) (e : DecodeError)
    (h1 : ¬ data = PRODUCT_LIST_CALLBACK_DATA) (h2 : ¬ data = SHOW_CART_CALLBACK_DATA)
    (h3 : ¬ data = "/start")
    (hdec : deserialize_product_id_and_amount data = .error e) :
    handle_users_reply env chat_id (Event.callback data)
        (some PRODUCT_DESCRIPTION_STATE) page =
      ((some PRODUCT_DESCRIPTION_STATE, page), .error (BotError.decode e)) := by
  simp only [handle_users_reply]
  have hres : resolved_state (event_reply (Event.callback data))
      (some PRODUCT_DESCRIPTION_STATE) = PRODUCT_DESCRIPTION_STATE := by
    unfold resolved_state
    rw [show event_reply (Event.callback data) = data from rfl, if_neg h3]
  rw [hres]
  rw [show state_functions PRODUCT_DESCRIPTION_STATE = some handle_product_description_state
    from by
      unfold state_functions
      rw [if_neg (by decide), if_neg (by decide), if_pos rfl]]
  have hh : handle_product_description_state env chat_id (Event.callback data) page =
      (page, .error (BotError.decode e)) := by
    simp only [handle_product_description_state]
    rw [if_neg h1, if_neg h2, hdec]
  simp only []
  rw [hh]

/-- Claim C3 counterexample: the malformed token "]]" in the product
description state makes the engine raise a decode error rather than ignore
the event. -/
theorem c3_counterexample_malformed_token_crash :
    handle_users_reply trivEnv 7 (Event.callback "]]")
        (some PRODUCT_DESCRIPTION_STATE) (some 0) =
      ((some PRODUCT_DESCRIPTION_STATE, some 0),
        .error (BotError.decode DecodeError.jsonDecode)) := by
  decide

/-- Claim C3 witness: the amended theorem evaluated on the malformed token
"]]". -/
theorem c3_malformed_token_witness :
    ¬ ("]]" = PRODUCT_LIST_CALLBACK_DATA) ∧
    ¬ ("]]" = SHOW_CART_CALLBACK_DATA) ∧
    ¬ ("]]" = "/start") ∧
    deserialize_product_id_and_amount "]]" = .error DecodeError.jsonDecode ∧
    handle_users_reply trivEnv 9 (Event.callback "]]") (some PRODUCT_DESCRIPTION_STATE)
        (some 2) =
      ((some PRODUCT_DESCRIPTION_STATE, some 2),
        .error (BotError.decode DecodeError.jsonDecode)) :=
  ⟨by decide, by decide, by decide, rfl,
    c3_malformed_token_raises trivEnv 9 "]]" (some 2) DecodeError.jsonDecode (by decide)
      (by decide) (by decide) rfl⟩

/-- Claim C4 (corrected): a user with no persisted state is indeed dispatched
to the start handler, but a persisted token outside the table does not default
— it raises a KeyError and the stored token survives. -/
theorem c4_missing_state_defaults_unknown_state_raises (env : Env) (chat_id : Int)
    (ev : Event) (page : Option Int) (s : String)
    (hs : state_functions s = none) (h : ¬ event_reply ev = "/start") :
    (resolved_state (event_reply ev) none = START_STATE ∧
      state_functions (resolved_state (event_reply ev) none) = some handle_start_state) ∧
    handle_users_reply env chat_id ev (some s) page =
      ((some s, page), .error (BotError.keyError s)) := by
  have hres0 : resolved_state (event_reply ev) none = START_STATE := by
    unfold resolved_state
    by_cases hq : event_reply ev = "/start"
    · rw [if_pos hq]
    · rw [if_neg hq]
  refine ⟨⟨hres0, ?_⟩, ?_⟩
  · rw [hres0]
    unfold state_functions
    rw [if_pos rfl]
  · simp only [handle_users_reply]
    have hres : resolved_state (event_reply ev) (some s) = s := by
      unfold resolved_state
      rw [if_neg h]
    rw [hres, hs]

/-- Claim C4 counterexample: the persisted token "garbage" is outside the
table, and a plain message then raises a KeyError instead of defaulting to
the start handler. -/
theorem c4_counterexample_unknown_state_key_error :
    handle_users_reply trivEnv 7 (Event.message "hello" none) (some "garbage") (some 0) =
      ((some "garbage", some 0), .error (BotError.keyError "garbage")) := by
  decide

/-- Claim C4 witness: the amended theorem evaluated on the unknown token
"garbage" and a concrete message. -/
theorem c4_unknown_state_witness :
    state_functions "garbage" = none ∧
    ¬ event_reply (Event.message "hi" none) = "/start" ∧
    ((resolved_state (event_reply (Event.message "hi" none)) none = START_STATE ∧
      state_functions (resolved_state (event_reply (Event.message "hi" none)) none) =
        some handle_start_state) ∧
    handle_users_reply trivEnv 8 (Event.message "hi" none) (some "garbage") (some 3) =
      ((some "garbage", some 3), .error (BotError.keyError "garbage"))) :=
  ⟨rfl, by decide,
    c4_missing_state_defaults_unknown_state_raises trivEnv 8 (Event.message "hi" none)
      (some 3) "garbage" rfl (by decide)⟩

/-- Claim C5 (corrected): the previous-page handler applies no floor at 0 —
see the counterexample, where it renders offset −8 — but along any event
sequence that sends the previous-page token only while the cursor is positive
(the only time `navigation_buttons` offers that button), an absent or
nonnegative cursor stays absent or nonnegative. -/
theorem c5_cursor_nonneg_under_button_discipline (env : Env) (chat_id : Int)
    (evs : List Event) (s : Option String × Option Int)
    (hdisc : prev_only_when_positive env chat_id evs s)
    (h0 : page_nonneg s.2) :
    page_nonneg (run_events env chat_id evs s).2 := by
  induction evs generalizing s with
  | nil => exact h0
  | cons ev evs ih =>
    obtain ⟨hg, hrest⟩ := hdisc
    exact ih (handle_users_reply env chat_id ev s.1 s.2).1 hrest
      (handle_users_reply_page_step env chat_id ev s.1 s.2 hg h0)

/-- Claim C5 counterexample: a previous-page token at cursor 0 drives the
cursor to −1 and renders the catalog at offset −8 — there is no floor. -/
theorem c5_counterexample_prev_at_zero_goes_negative :
    run_events trivEnv 7 [Event.message "/start" none,
        Event.callback PREVIOUS_PAGE_CALLBACK_DATA] (none, none) =
      (some PRODUCT_LIST_STATE, some (-1)) ∧
    handle_users_reply trivEnv 7 (Event.callback PREVIOUS_PAGE_CALLBACK_DATA)
        (some PRODUCT_LIST_STATE) (some 0) =
      ((some PRODUCT_LIST_STATE, some (-1)),
        .ok [Render.deleteMessage, Render.answerCallback none,
          Render.productList (-8) [] []]) := by
  constructor <;> decide

/-- Claim C5 witness: the amended invariant evaluated along a concrete
disciplined sequence — start, next page, previous page. -/
theorem c5_cursor_nonneg_witness :
    prev_only_when_positive pagedEnv 7 [Event.message "/start" none,
        Event.callback NEXT_PAGE_CALLBACK_DATA, Event.callback PREVIOUS_PAGE_CALLBACK_DATA]
      (none, none) ∧
    page_nonneg ((none : Option String), (none : Option Int)).2 ∧
    page_nonneg (run_events pagedEnv 7 [Event.message "/start" none,
        Event.callback NEXT_PAGE_CALLBACK_DATA, Event.callback PREVIOUS_PAGE_CALLBACK_DATA]
      (none, none)).2 :=
  ⟨by decide, by decide,
    c5_cursor_nonneg_under_button_discipline pagedEnv 7
      [Event.message "/start" none, Event.callback NEXT_PAGE_CALLBACK_DATA,
        Event.callback PREVIOUS_PAGE_CALLBACK_DATA]
      (none, none) (by decide) (by decide)⟩

/-- Claim C6 (confirmed): the delivery message is the free-pickup text naming
the shop address and exact distance below 500 meters, the 100-ruble tier on
[500, 5000), the 300-ruble tier on [5000, 20000), and the refusal from 20000
on. -/
theorem c6_delivery_tiers (shop : Entry) (d : Int) :
    (d < 500 → show_delivery_options shop d =
      Render.text ("Delivery is free! Also you can get your order at " ++
        shop.fields "Address" ++ ". It is only " ++ toString d ++
        " meters away from you.")) ∧
    (500 ≤ d → d < 5000 →
      show_delivery_options shop d = Render.text "Delivery price is 100 rubles.") ∧
    (5000 ≤ d → d < 20000 →
      show_delivery_options shop d = Render.text "Delivery price is 300 rubles.") ∧
    (20000 ≤ d →
      show_delivery_options shop d =
        Render.text "Sorry, you are too far away from the nearest shop :(.") := by
  refine ⟨fun h => ?_, fun h1 h2 => ?_, fun h1 h2 => ?_, fun h => ?_⟩
  · unfold show_delivery_options
    rw [if_pos h]
  · unfold show_delivery_options
    rw [if_neg (by omega), if_pos h2]
  · unfold show_delivery_options
    rw [if_neg (by omega), if_neg (by omega), if_pos h2]
  · unfold show_delivery_options
    rw [if_neg (by omega), if_neg (by omega), if_neg (by omega)]

/-- Claim C6 witness: every tier boundary evaluated on a concrete shop entry
at 499, 500, 4999, 5000, 19999 and 20000 meters. -/
theorem c6_delivery_tiers_witness :
    ((499 : Int) < 500 ∧ show_delivery_options shopEntryA 499 =
      Render.text ("Delivery is free! Also you can get your order at " ++
        shopEntryA.fields "Address" ++ ". It is only " ++ toString (499 : Int) ++
        " meters away from you.")) ∧
    show_delivery_options shopEntryA 500 = Render.text "Delivery price is 100 rubles." ∧
    show_delivery_options shopEntryA 4999 = Render.text "Delivery price is 100 rubles." ∧
    show_delivery_options shopEntryA 5000 = Render.text "Delivery price is 300 rubles." ∧
    show_delivery_options shopEntryA 19999 = Render.text "Delivery price is 300 rubles." ∧
    show_delivery_options shopEntryA 20000 =
      Render.text "Sorry, you are too far away from the nearest shop :(." :=
  ⟨⟨by decide, (c6_delivery_tiers shopEntryA 499).1 (by decide)⟩,
    (c6_delivery_tiers shopEntryA 500).2.1 (by decide) (by decide),
    (c6_delivery_tiers shopEntryA 4999).2.1 (by decide) (by decide),
    (c6_delivery_tiers shopEntryA 5000).2.2.1 (by decide) (by decide),
    (c6_delivery_tiers shopEntryA 19999).2.2.1 (by decide) (by decide),
    (c6_delivery_tiers shopEntryA 20000).2.2.2 (by decide)⟩

/-- Claim C7 (confirmed): over any nonempty entry collection the checkout
selects the shop minimizing the distance to the user point, and the selected
shop is the first of the collection attaining that minimum: every entry
before it is strictly farther, none anywhere is closer. -/
theorem c7_nearest_shop_first_argmin (env : Env) (coords : String × String)
    (entries : List Entry)
    (hent : env.get_all_entries env.shop_flow = .ok entries) (hne : entries ≠ []) :
    ∃ nearest pre post,
      entries = pre ++ nearest :: post ∧
      pyMin (shop_distance_calculator env.geodesic_meters coords.1 coords.2) entries =
        some nearest ∧
      (∀ y ∈ pre, shop_distance_calculator env.geodesic_meters coords.1 coords.2 nearest <
        shop_distance_calculator env.geodesic_meters coords.1 coords.2 y) ∧
      (∀ y ∈ entries, shop_distance_calculator env.geodesic_meters coords.1 coords.2 nearest ≤
        shop_distance_calculator env.geodesic_meters coords.1 coords.2 y) ∧
      handle_location_found env coords =
        .ok (START_STATE, [show_delivery_options nearest
          (shop_distance_calculator env.geodesic_meters coords.1 coords.2 nearest)]) := by
  cases entries with
  | nil => exact absurd rfl hne
  | cons e es =>
    obtain ⟨pre, post, hdecomp, hpre, hle⟩ :=
      pyFold_first_argmin (shop_distance_calculator env.geodesic_meters coords.1 coords.2) es e
    refine ⟨pyFold (shop_distance_calculator env.geodesic_meters coords.1 coords.2) e es,
      pre, post, hdecomp, rfl, hpre, hle, ?_⟩
    simp only [handle_location_found]
    rw [hent]
    rfl

/-- Claim C7 witness: the theorem evaluated over two concrete entries that the
distance oracle puts at the same distance, so the first one is selected. -/
theorem c7_nearest_shop_witness :
    shopsEnv.get_all_entries shopsEnv.shop_flow = .ok [shopEntryA, shopEntryB] ∧
    ([shopEntryA, shopEntryB] : List Entry) ≠ [] ∧
    (∃ nearest pre post,
      ([shopEntryA, shopEntryB] : List Entry) = pre ++ nearest :: post ∧
      pyMin (shop_distance_calculator shopsEnv.geodesic_meters "37.6" "55.7")
        [shopEntryA, shopEntryB] = some nearest ∧
      (∀ y ∈ pre,
        shop_distance_calculator shopsEnv.geodesic_meters "37.6" "55.7" nearest <
          shop_distance_calculator shopsEnv.geodesic_meters "37.6" "55.7" y) ∧
      (∀ y ∈ ([shopEntryA, shopEntryB] : List Entry),
        shop_distance_calculator shopsEnv.geodesic_meters "37.6" "55.7" nearest ≤
          shop_distance_calculator shopsEnv.geodesic_meters "37.6" "55.7" y) ∧
      handle_location_found shopsEnv ("37.6", "55.7") =
        .ok (START_STATE, [show_delivery_options nearest
          (shop_distance_calculator shopsEnv.geodesic_meters "37.6" "55.7" nearest)])) :=
  ⟨rfl, List.cons_ne_nil shopEntryA [shopEntryB],
    c7_nearest_shop_first_argmin shopsEnv ("37.6", "55.7") [shopEntryA, shopEntryB] rfl
      (List.cons_ne_nil shopEntryA [shopEntryB])⟩

/-- Claim C9 (confirmed): when the dispatched state handler raises, the Redis
write is skipped — `handle_users_reply` returns the stored state unchanged
alongside the propagated error; only the in-place cursor mutation survives. -/
theorem c9_error_keeps_db (env : Env) (chat_id : Int) (ev : Event) (db : Option String)
    (page page2 : Option Int) (e : BotError)
    (f : Env → Int → Event → Option Int → Option Int × Except BotError (String × List Render))
    (hf : state_functions (resolved_state (event_reply ev) db) = some f)
    (hrun : f env chat_id ev page = (page2, .error e)) :
    handle_users_reply env chat_id ev db page = ((db, page2), .error e) := by
  simp only [handle_users_reply]
  rw [hf]
  simp only []
  rw [hrun]

/-- Claim C9 witness: the theorem evaluated over the failing catalog — the
next-page handler raises the HTTP error and the stored state is kept while
the already-incremented cursor survives. -/
theorem c9_error_keeps_db_witness :
    state_functions (resolved_state (event_reply (Event.callback NEXT_PAGE_CALLBACK_DATA))
        (some PRODUCT_LIST_STATE)) = some handle_product_list_state ∧
    handle_product_list_state failEnv 7 (Event.callback NEXT_PAGE_CALLBACK_DATA) (some 0) =
      (some 1, .error BotError.api) ∧
    handle_users_reply failEnv 7 (Event.callback NEXT_PAGE_CALLBACK_DATA)
        (some PRODUCT_LIST_STATE) (some 0) =
      ((some PRODUCT_LIST_STATE, some 1), .error BotError.api) :=
  ⟨rfl, by decide,
    c9_error_keeps_db failEnv 7 (Event.callback NEXT_PAGE_CALLBACK_DATA)
      (some PRODUCT_LIST_STATE) (some 0) (some 1) BotError.api
      handle_product_list_state rfl (by decide)⟩

/-- Claim C10 (confirmed): a "/start" message is dispatched to the start
handler whatever state is stored — known, unknown or missing: the cursor is
reset to 0, catalog page 0 is rendered, and the persisted state becomes the
product list state. -/
theorem c10_start_message_resets (env : Env) (chat_id : Int) (db : Option String)
    (page : Option Int) (loc : Option (String × String)) (l0 l1 : List Product)
    (h0 : env.get_products PRODUCT_LIST_PAGE_SIZE 0 = .ok l0)
    (h1 : env.get_products PRODUCT_LIST_PAGE_SIZE PRODUCT_LIST_PAGE_SIZE = .ok l1) :
    handle_users_reply env chat_id (Event.message "/start" loc) db page =
      ((some PRODUCT_LIST_STATE, some 0),
        .ok [Render.productList 0 l0
          (if l1.length > 0 then [NEXT_PAGE_CALLBACK_DATA] else [])]) := by
  simp [handle_users_reply, resolved_state, event_reply, state_functions,
    handle_start_state, show_product_list, navigation_buttons,
    NEXT_PAGE_CALLBACK_DATA, PREVIOUS_PAGE_CALLBACK_DATA, PRODUCT_LIST_STATE, START_STATE,
    PRODUCT_DESCRIPTION_STATE, CART_STATE, WAIT_LOCATION_STATE, h0, h1]

/-- Claim C10 witness: the theorem evaluated over the paged catalog with the
unknown stored token "garbage" and a stale cursor. -/
theorem c10_start_message_witness :
    pagedEnv.get_products PRODUCT_LIST_PAGE_SIZE 0 = .ok (List.replicate 8 sampleProduct) ∧
    pagedEnv.get_products PRODUCT_LIST_PAGE_SIZE PRODUCT_LIST_PAGE_SIZE =
      .ok ([] : List Product) ∧
    handle_users_reply pagedEnv 11 (Event.message "/start" none) (some "garbage") (some 5) =
      ((some PRODUCT_LIST_STATE, some 0),
        .ok [Render.productList 0 (List.replicate 8 sampleProduct)
          (if ([] : List Product).length > 0 then [NEXT_PAGE_CALLBACK_DATA] else [])]) :=
  ⟨by decide, by decide,
    c10_start_message_resets pagedEnv 11 (some "garbage") (some 5) none
      (List.replicate 8 sampleProduct) [] (by decide) (by decide)⟩

end ShopBot
